import Mathlib

/-!
Verification of the lunitool UI state machine (src/src/app.rs, src/src/ui/tui.rs,
src/src/ui/widgets.rs, src/src/core/disk_info.rs).

The Rust program is shallowly embedded: `usize` becomes `Nat`, `Vec<T>` becomes
`List T`, `String` stays `String`, `Option` stays `Option`.  The terminal,
logging and the event loop are not part of any claim and are omitted; the two
fallible external calls (`core::load_language`, `core::set_keyboard`) and the
localization lookup `get_text` are modelled by an environment of oracles, since
their outcome depends only on the outside world.  Places where the Rust code
would panic (index out of bounds, `usize` underflow, `% 0`) are marked by a
comment at the definition; each such place is unreachable under the invariants
proved below.
-/

namespace Lunitool

/-- src/src/ui/widgets.rs: `enum MenuType`. -/
inductive MenuType
  | Simple
  | Card
deriving DecidableEq, Repr

/-- src/src/ui/widgets.rs: `struct MenuItem`. -/
structure MenuItem where
  id : String
  title : String
  description : String
  menu_type : MenuType
deriving DecidableEq, Repr

/-- src/src/ui/widgets.rs: `enum Screen`. -/
inductive Screen
  | MainMenu
  | LanguageSelect
  | KeyboardSelect
  | SystemInstallation
  | Message
  | ConfirmExit
deriving DecidableEq, Repr

/-- src/src/ui/widgets.rs: `enum DialogType`. -/
inductive DialogType
  | YesNo (title_key : String) (message_key : String)
  | ThemeSelector
deriving DecidableEq, Repr

/-- src/src/ui/widgets.rs: `enum DisplayItemType`. -/
inductive DisplayItemType
  | Disk
  | Partition
  | LuksContainer
  | LuksMappedContent
  | LvmVolumeGroup
  | LvmLogicalVolume
  | LvmPhysicalVolume
  | VeraCryptContainer
  | UnallocatedSpace
  | FileSystemItem
  | Label
  | Unknown
deriving DecidableEq, Repr

/-- src/src/ui/widgets.rs: `struct DisplayListItem`. -/
structure DisplayListItem where
  id_path : String
  display_text : String
  indent_level : Nat
  item_type : DisplayItemType
  selectable : Bool
  size_bytes : Option Nat
deriving DecidableEq, Repr

/-- src/src/app.rs: `enum InstallationStep`. -/
inductive InstallationStep
  | Welcome
  | DiskSetup
  | UserSetup
  | NetworkConfig
  | DesktopChoice
  | KernelChoice
  | SecureBootChoice
  | UpdateSettings
  | AdditionalPackages
  | Summary
  | Installing
  | Completed
  | Error
deriving DecidableEq, Repr

/-- src/src/app.rs: `enum InstallationTaskStatus`. -/
inductive InstallationTaskStatus
  | Pending
  | Active
  | Completed
  | Failed
deriving DecidableEq, Repr

/-- src/src/app.rs: `struct InstallationTaskItem`. -/
structure InstallationTaskItem where
  id : String
  title : String
  step : InstallationStep
  status : InstallationTaskStatus
deriving DecidableEq, Repr

/-- src/src/app.rs: `struct InstallationConfig`. -/
structure InstallationConfig where
  target_disk : Option String := none
  hostname : Option String := none
  username : Option String := none
  user_password : Option String := none
  luks_password : Option String := none
deriving DecidableEq, Repr

/-- src/src/core/disk_info.rs: `struct LvmPhysicalVolumeData`. -/
structure LvmPhysicalVolumeData where
  path : String
  pv_uuid : String
  vg_name : Option String
  size_bytes : Nat
  free_bytes : Nat
deriving DecidableEq, Repr

/-- src/src/core/disk_info.rs: `enum MappedContent`. -/
inductive MappedContent
  | LvmPhysicalVolume (data : LvmPhysicalVolumeData)
  | FileSystem (fs_type : Option String) (fs_uuid : Option String)
      (fs_label : Option String) (mount_point : Option String)
  | Unknown
deriving DecidableEq, Repr

/-- src/src/core/disk_info.rs: `enum PartitionContent`.
The Rust `Box<MappedContent>` is just `MappedContent` here. -/
inductive PartitionContent
  | FileSystem
  | LuksContainer (uuid : String) (mapped_name : Option String)
      (mapped_content : Option MappedContent)
  | LvmPhysicalVolume (pv_uuid : String) (vg_name : Option String)
  | VeraCryptContainer (is_mounted : Bool) (mount_path : Option String)
  | Unknown
  | Swap
deriving DecidableEq, Repr

/-- src/src/core/disk_info.rs: `struct Partition`. -/
structure Partition where
  path : String
  part_type_guid : Option String := none
  part_label : Option String := none
  part_uuid : Option String := none
  part_flags : Option String := none
  fs_type : Option String := none
  fs_uuid : Option String := none
  fs_label : Option String := none
  size_bytes : Nat := 0
  mount_point : Option String := none
  content : Option PartitionContent := none
deriving DecidableEq, Repr

/-- src/src/core/disk_info.rs: `struct PhysicalDisk`. -/
structure PhysicalDisk where
  path : String
  model : Option String := none
  vendor : Option String := none
  size_bytes : Nat := 0
  rota : Bool := false
  partitions : List Partition := []
deriving DecidableEq, Repr

/-- src/src/core/disk_info.rs: `struct LvmLogicalVolume`. -/
structure LvmLogicalVolume where
  name : String
  path : String
  uuid : String
  size_bytes : Nat := 0
  fs_type : Option String := none
  fs_uuid : Option String := none
  fs_label : Option String := none
  mount_point : Option String := none
deriving DecidableEq, Repr

/-- src/src/core/disk_info.rs: `struct LvmVolumeGroup`. -/
structure LvmVolumeGroup where
  name : String
  uuid : String
  size_bytes : Nat := 0
  free_bytes : Nat := 0
  physical_volumes : List String := []
  logical_volumes : List LvmLogicalVolume := []
deriving DecidableEq, Repr

/-- src/src/core/disk_info.rs: `struct SystemDiskInfo`. -/
structure SystemDiskInfo where
  disks : List PhysicalDisk := []
  lvm_volume_groups : List LvmVolumeGroup := []
deriving DecidableEq, Repr

/-- src/src/ui/theme.rs: `struct Theme`.  Only the `name` field is read by any
code under verification (the color palette fields are opaque render resources,
out of the core per the spec), so they are not carried here. -/
structure Theme where
  name : String
deriving DecidableEq, Repr

/-- src/src/ui/theme.rs: `ThemeName::all()` mapped through `Display`/`Theme::get`,
as done in `UiState::new`: the ordered catalog of theme names. -/
def themeCatalog : List Theme :=
  [⟨"Ableton Disco"⟩, ⟨"Brown Sugar"⟩, ⟨"Lady Like"⟩, ⟨"Materia Matter"⟩,
   ⟨"Ratatui Rules"⟩, ⟨"Terminal Spirit"⟩, ⟨"Ubuntu Joy"⟩, ⟨"White Sur"⟩]

/-- src/src/config.rs: `struct Config` (the nested `UiConfig` is inlined). -/
structure Config where
  current_lang : String
  keyboard : String
  debug_mode : Bool := true
  log_file : String := "/var/log/lunitool.log"
  ui_theme : String := "default"
  ui_auto_size : Bool := true
deriving DecidableEq, Repr

/-- crossterm `KeyCode`, restricted to the constructors the program matches on
(`_` arms make every other code a no-op, collapsed into `other`). -/
inductive KeyCode
  | enter
  | esc
  | backspace
  | up
  | down
  | left
  | right
  | char (c : Char)
  | other
deriving DecidableEq, Repr

/-- A key event: the code plus whether the modifier set equals exactly
`KeyModifiers::ALT` (the only modifier comparison the program performs). -/
structure KeyEvent where
  code : KeyCode
  alt : Bool
deriving DecidableEq, Repr

/-- Oracles for the world outside the UI core: success of
`core::load_language` and `core::set_keyboard`, the error text their `Err`
carries, and the `get_text` localization lookup. -/
structure Env where
  langOk : String → Bool
  kbOk : String → Bool
  langErr : String → String
  kbErr : String → String
  text : String → String

/-- src/src/ui/tui.rs: `struct UiState`.  `ListState` values are represented by
their `selected()` contents; the transient scrollbar fields are carried but
only ever touched by the renderer, which is out of scope. -/
structure UiState where
  current_screen : Screen
  menu_items : List MenuItem
  selected_index : Nat
  languages : List String
  keyboards : List String
  message : Option (String × String)
  previous_screen : Screen
  installation_step : Option InstallationStep
  installation_config : InstallationConfig
  installation_tasks : List InstallationTaskItem
  current_installation_task_index : Nat
  show_log_panel : Bool
  input_buffer : String
  installation_task_list_selected : Option Nat
  system_disk_info : Option SystemDiskInfo
  disk_setup_selected_item_path : Option String
  disk_setup_list_selected : Option Nat
  current_disk_display_items : List DisplayListItem
  is_loading_disks : Bool
  log_buffer : List String
  task_description_scroll_offset : Nat
  task_description_total_lines : Nat
  active_dialog : Option DialogType
  dialog_selected_option : Nat
  themes : List Theme
  active_theme_index : Nat
deriving Repr

/-- src/src/app.rs: `struct App`, minus the terminal handle and tick clock
(pure I/O scheduling, no claim concerns them). -/
structure AppState where
  config : Config
  ui_state : UiState
  should_quit : Bool
deriving Repr

namespace UiState

/-- src/src/ui/tui.rs: `UiState::set_current_screen`. -/
def set_current_screen (s : UiState) (new_screen : Screen) : UiState :=
  let s := { s with previous_screen := s.current_screen, current_screen := new_screen }
  match new_screen with
  | .MainMenu | .LanguageSelect | .KeyboardSelect | .ConfirmExit =>
      { s with selected_index := 0 }
  | .Message => s
  | .SystemInstallation => s

/-- src/src/ui/tui.rs: `UiState::selected_menu_item`. -/
def selected_menu_item (s : UiState) : Option MenuItem :=
  s.menu_items.get? s.selected_index

/-- src/src/ui/tui.rs: `UiState::next_menu_item`.
Rust computes `(i + 1) % len` on `usize` and panics when `len = 0`; here
`n % 0 = n`, and every claim about this operation assumes a non-empty menu. -/
def next_menu_item (s : UiState) : UiState :=
  { s with selected_index := (s.selected_index + 1) % s.menu_items.length }

/-- src/src/ui/tui.rs: `UiState::previous_menu_item`.
Rust computes `len - 1` on `usize` and panics when `len = 0`; here `0 - 1 = 0`. -/
def previous_menu_item (s : UiState) : UiState :=
  if s.selected_index > 0 then
    { s with selected_index := s.selected_index - 1 }
  else
    { s with selected_index := s.menu_items.length - 1 }

/-- src/src/ui/tui.rs: `UiState::selected_language`. -/
def selected_language (s : UiState) : Option String :=
  s.languages.get? s.selected_index

/-- src/src/ui/tui.rs: `UiState::next_language`. -/
def next_language (s : UiState) : UiState :=
  { s with selected_index := (s.selected_index + 1) % s.languages.length }

/-- src/src/ui/tui.rs: `UiState::previous_language`. -/
def previous_language (s : UiState) : UiState :=
  if s.selected_index > 0 then
    { s with selected_index := s.selected_index - 1 }
  else
    { s with selected_index := s.languages.length - 1 }

/-- src/src/ui/tui.rs: `UiState::selected_keyboard`. -/
def selected_keyboard (s : UiState) : Option String :=
  s.keyboards.get? s.selected_index

/-- src/src/ui/tui.rs: `UiState::next_keyboard`. -/
def next_keyboard (s : UiState) : UiState :=
  { s with selected_index := (s.selected_index + 1) % s.keyboards.length }

/-- src/src/ui/tui.rs: `UiState::previous_keyboard`. -/
def previous_keyboard (s : UiState) : UiState :=
  if s.selected_index > 0 then
    { s with selected_index := s.selected_index - 1 }
  else
    { s with selected_index := s.keyboards.length - 1 }

/-- src/src/ui/tui.rs: `UiState::show_message`. -/
def show_message (s : UiState) (title content : String) : UiState :=
  { s with previous_screen := s.current_screen,
           message := some (title, content),
           current_screen := .Message }

/-- src/src/ui/tui.rs: `UiState::show_error`. -/
def show_error (s : UiState) (title content : String) : UiState :=
  s.show_message ("Error: " ++ title) content

/-- src/src/ui/tui.rs: `UiState::clear_message`. -/
def clear_message (s : UiState) : UiState :=
  { s with message := none, current_screen := s.previous_screen }

/-- src/src/ui/tui.rs: `UiState::installation_step_requires_text_input`. -/
def installation_step_requires_text_input (s : UiState) : Bool :=
  match s.installation_step with
  | some step => step = .UserSetup
  | none => false

end UiState

/-- src/src/ui/tui.rs: the `{:.2}` rendering of `bytes as f64 / unit as f64` in
`format_size`.  The exact `f64` rounding is abstracted to round-half-to-even on
the exact rational value; no claim inspects these digits. -/
def fmtTwoDecimals (bytes unit : Nat) : String :=
  let num := bytes * 100
  let q := num / unit
  let r := num % unit
  let q := if 2 * r > unit then q + 1
           else if 2 * r = unit ∧ q % 2 = 1 then q + 1
           else q
  toString (q / 100) ++ "." ++ (if q % 100 < 10 then "0" else "") ++ toString (q % 100)

/-- src/src/ui/tui.rs: `format_size` (the `if bytes == 0` statement in the
source builds a string and discards it, so zero falls through to the `B`
branch exactly as here). -/
def format_size (bytes : Nat) : String :=
  let kb := 1024
  let mb := kb * 1024
  let gb := mb * 1024
  let tb := gb * 1024
  if bytes ≥ tb then fmtTwoDecimals bytes tb ++ " TB"
  else if bytes ≥ gb then fmtTwoDecimals bytes gb ++ " GB"
  else if bytes ≥ mb then fmtTwoDecimals bytes mb ++ " MB"
  else if bytes ≥ kb then fmtTwoDecimals bytes kb ++ " KB"
  else toString bytes ++ " B"

/-- src/src/ui/tui.rs: the 0-or-1 rows `build_disk_display_list` pushes for
the mapped content of an opened LUKS container (the inner
`match mc.as_ref()` of the source). -/
def luksMappedContentRows (luks_id mn : String) (part_size : Nat)
    (mc : MappedContent) : List DisplayListItem :=
  match mc with
  | .LvmPhysicalVolume pv_data =>
      [{ id_path := luks_id ++ "/lvm_pv/" ++ pv_data.pv_uuid
         display_text := "  " ++ "    └─ " ++ "📦" ++ " LVM PV on " ++ mn ++
           " (for VG: " ++ (pv_data.vg_name.getD "Unknown") ++ ")"
         indent_level := 3
         item_type := .LvmPhysicalVolume
         selectable := false
         size_bytes := some pv_data.size_bytes }]
  | .FileSystem fs_type _ fs_label mount_point =>
      let fs_details := [fs_type.getD "FS"] ++
        (match fs_label with
         | some fsl => ["\x27" ++ fsl ++ "\x27"]
         | none => []) ++
        (match mount_point with
         | some mp => ["at \x27" ++ mp ++ "\x27"]
         | none => [])
      [{ id_path := luks_id ++ "/fs"
         display_text := "  " ++ "    └─ " ++ "🗛" ++ " " ++
           (fs_type.getD "Filesystem") ++ " on " ++ mn ++ " (" ++
           String.intercalate ", " fs_details ++ ")"
         indent_level := 3
         item_type := .FileSystemItem
         selectable := true
         size_bytes := some part_size }]
  | .Unknown => []

/-- src/src/ui/tui.rs: the rows `build_disk_display_list` pushes for a
`PartitionContent::LuksContainer`: the container row itself (display text and
selectability depend on whether the container is mapped) followed by the rows
for its mapped content when both `mapped_name` and `mapped_content` are
present — exactly the source\'s `if let (Some(mn), Some(mc))`. -/
def luksContainerRows (luks_id uuid : String) (part_size : Nat)
    (mapped_name : Option String) (mapped_content : Option MappedContent) :
    List DisplayListItem :=
  match mapped_name, mapped_content with
  | some mn, some mc =>
      { id_path := luks_id
        display_text := "  " ++ "  └─ " ++ "🔒" ++ " LUKS Container (" ++
          uuid ++ ")" ++ ("  " ++ mn)
        indent_level := 2
        item_type := .LuksContainer
        selectable := false
        size_bytes := some part_size } ::
      luksMappedContentRows luks_id mn part_size mc
  | some mn, none =>
      [{ id_path := luks_id
         display_text := "  " ++ "  └─ " ++ "🔒" ++ " LUKS Container (" ++
           uuid ++ ")" ++ ("  " ++ mn)
         indent_level := 2
         item_type := .LuksContainer
         selectable := false
         size_bytes := some part_size }]
  | none, _ =>
      [{ id_path := luks_id
         display_text := "  " ++ "  └─ " ++ "🔒" ++ " LUKS Container (" ++
           uuid ++ ")" ++ " - Not active"
         indent_level := 2
         item_type := .LuksContainer
         selectable := true
         size_bytes := some part_size }]

/-- src/src/ui/tui.rs: the rows `build_disk_display_list` pushes for the
content of one partition (the inner `match content` of the source).
`part_id_base` is the partition path. -/
def partitionContentRows (part_id_base : String) (part_size : Nat)
    (content : PartitionContent) : List DisplayListItem :=
  match content with
  | .LuksContainer uuid mapped_name mapped_content =>
      luksContainerRows (part_id_base ++ "/luks/" ++ uuid) uuid part_size
        mapped_name mapped_content
  | .LvmPhysicalVolume pv_uuid vg_name =>
      [{ id_path := part_id_base ++ "/direct_lvm_pv/" ++ pv_uuid
         display_text := "  " ++ "  └─ " ++ "📦" ++ " LVM PV (for VG: " ++
           (vg_name.getD "Unknown") ++ ")"
         indent_level := 2
         item_type := .LvmPhysicalVolume
         selectable := false
         size_bytes := some part_size }]
  | .FileSystem => []
  | .Swap => []
  | .Unknown =>
      [{ id_path := part_id_base ++ "/unallocated"
         display_text := "  " ++ "  └─ Unallocated or Unknown Space"
         indent_level := 2
         item_type := .UnallocatedSpace
         selectable := true
         size_bytes := some part_size }]
  | .VeraCryptContainer _ _ => []

/-- src/src/ui/tui.rs: the rows `build_disk_display_list` pushes for one
partition: the partition row itself followed by its content rows. -/
def partitionRows (p : Partition) : List DisplayListItem :=
  let part_info_tags :=
    (match p.fs_type with
     | some fs_type => [fs_type]
     | none => []) ++
    (match p.fs_label.orElse (fun _ => p.part_label) with
     | some label => ["\x27" ++ label ++ "\x27"]
     | none => []) ++
    (match p.mount_point with
     | some mount_point => ["at \x27" ++ mount_point ++ "\x27"]
     | none => [])
  let partRow : DisplayListItem :=
    { id_path := p.path
      display_text := "  " ++ "└─ " ++ "📄" ++ " " ++ p.path ++ " (" ++
        format_size p.size_bytes ++ ", " ++ String.intercalate ", " part_info_tags ++ ")"
      indent_level := 1
      item_type := .Partition
      selectable := true
      size_bytes := some p.size_bytes }
  partRow :: (match p.content with
              | some content => partitionContentRows p.path p.size_bytes content
              | none => [])

/-- src/src/ui/tui.rs: the rows `build_disk_display_list` pushes for one disk:
the disk header row followed by the rows of each of its partitions. -/
def diskRows (disk : PhysicalDisk) : List DisplayListItem :=
  let diskRow : DisplayListItem :=
    { id_path := disk.path
      display_text := "💾" ++ " " ++ disk.path ++ " (" ++ (disk.model.getD "N/A") ++
        ", " ++ format_size disk.size_bytes ++ ")"
      indent_level := 0
      item_type := .Disk
      selectable := false
      size_bytes := some disk.size_bytes }
  diskRow :: disk.partitions.flatMap partitionRows

/-- src/src/ui/tui.rs: the rows `build_disk_display_list` pushes for one LVM
volume group: the group row followed by one row per logical volume. -/
def vgRows (vg : LvmVolumeGroup) : List DisplayListItem :=
  let vgRow : DisplayListItem :=
    { id_path := "lvm_vg/" ++ vg.name
      display_text := vg.name ++ " (" ++ format_size vg.size_bytes ++ ", " ++
        format_size vg.free_bytes ++ " free, PVs: " ++
        String.intercalate ", " vg.physical_volumes ++ ")"
      indent_level := 1
      item_type := .LvmVolumeGroup
      selectable := false
      size_bytes := some vg.size_bytes }
  vgRow :: vg.logical_volumes.map (fun lv =>
    let lv_details := [format_size lv.size_bytes] ++
      (match lv.fs_type with
       | some fs_type => [fs_type]
       | none => []) ++
      (match lv.fs_label with
       | some label => ["\x27" ++ label ++ "\x27"]
       | none => []) ++
      (match lv.mount_point with
       | some mount => ["at \x27" ++ mount ++ "\x27"]
       | none => [])
    { id_path := lv.path
      display_text := "  " ++ "└─ " ++ "🗛" ++ " " ++ lv.name ++ " (" ++
        String.intercalate ", " lv_details ++ ")" ++
        (if lv.mount_point = some "/" then " (Current System Root)" else "")
      indent_level := 2
      item_type := .LvmLogicalVolume
      selectable := true
      size_bytes := some lv.size_bytes })

/-- src/src/ui/tui.rs: `build_disk_display_list` — the depth-first flattening
of a `SystemDiskInfo` snapshot into display rows. -/
def build_disk_display_list (disk_info : SystemDiskInfo) : List DisplayListItem :=
  (disk_info.disks.flatMap diskRows) ++
  (if disk_info.lvm_volume_groups.isEmpty then []
   else
     { id_path := "lvm_section_header"
       display_text := "\n" ++ "📦" ++ " LVM Volume Groups:"
       indent_level := 0
       item_type := .Label
       selectable := false
       size_bytes := none } :: disk_info.lvm_volume_groups.flatMap vgRows)

/-- The recurring Rust idiom
`if let Some(task) = tasks.get_mut(i) { task.status = st; }`:
set the status of the task at index `i`, doing nothing out of bounds. -/
def setTaskStatus (tasks : List InstallationTaskItem) (i : Nat)
    (st : InstallationTaskStatus) : List InstallationTaskItem :=
  match tasks.get? i with
  | some t => tasks.set i { t with status := st }
  | none => tasks

/-- src/src/app.rs: `App::initialize_installation_tasks`. -/
def initialize_installation_tasks (env : Env) : List InstallationTaskItem :=
  [ ⟨"welcome", env.text "TASK_WELCOME", .Welcome, .Active⟩,
    ⟨"disk_setup", env.text "TASK_DISK_SETUP", .DiskSetup, .Pending⟩,
    ⟨"user_setup", env.text "TASK_USER_SETUP", .UserSetup, .Pending⟩,
    ⟨"summary", env.text "TASK_SUMMARY", .Summary, .Pending⟩ ]

/-- src/src/app.rs: `App::create_localized_menu_items` (the same list is built
inline in `App::new`). -/
def create_localized_menu_items (env : Env) : List MenuItem :=
  [ ⟨"install", env.text "LANG_INSTALL", env.text "LANG_INSTALL_DESC", .Card⟩,
    ⟨"backup", env.text "LANG_BACKUP", env.text "LANG_BACKUP_DESC", .Card⟩,
    ⟨"keys", env.text "LANG_KEYS", env.text "LANG_KEYS_DESC", .Card⟩ ]

/-- src/src/app.rs: `App::confirm_exit`. -/
def confirm_exit (s : AppState) : AppState :=
  if s.ui_state.active_dialog.isSome then s
  else
    { s with ui_state := { s.ui_state with
        active_dialog := some (.YesNo "LANG_CONFIRM_TITLE" "LANG_EXIT_CONFIRM"),
        dialog_selected_option := 1 } }

/-- src/src/app.rs: `App::handle_dialog_confirm`. -/
def handle_dialog_confirm (s : AppState) : AppState :=
  match s.ui_state.active_dialog with
  | some (.YesNo title_key _) =>
      if title_key = "LANG_CONFIRM_TITLE" then
        if s.ui_state.dialog_selected_option = 0 then
          { s with should_quit := true }
        else
          { s with ui_state := { s.ui_state with active_dialog := none } }
      else
        { s with ui_state := { s.ui_state with active_dialog := none } }
  | some .ThemeSelector => s
  | none => s

/-- src/src/app.rs: `App::handle_dialog_cancel`. -/
def handle_dialog_cancel (s : AppState) : AppState :=
  { s with ui_state := { s.ui_state with active_dialog := none } }

/-- src/src/app.rs: `App::handle_theme_dialog_confirm`. -/
def handle_theme_dialog_confirm (s : AppState) : AppState :=
  let s1 :=
    match s.ui_state.active_dialog with
    | some .ThemeSelector =>
        if s.ui_state.dialog_selected_option < s.ui_state.themes.length then
          { s with ui_state := { s.ui_state with
              active_theme_index := s.ui_state.dialog_selected_option } }
        else s
    | _ => s
  { s1 with ui_state := { s1.ui_state with active_dialog := none } }

/-- src/src/app.rs: `App::update_active_task_status`. -/
def update_active_task_status (s : AppState) : AppState :=
  let ui := s.ui_state
  let tasks1 := ui.installation_tasks.map
    (fun t => if t.status = .Active then { t with status := .Pending } else t)
  match tasks1.get? ui.current_installation_task_index with
  | some t =>
      if some t.step = ui.installation_step then
        { s with ui_state := { ui with
            installation_tasks :=
              tasks1.set ui.current_installation_task_index { t with status := .Active },
            installation_task_list_selected := some ui.current_installation_task_index } }
      else
        match tasks1.findIdx? (fun tk => decide (some tk.step = ui.installation_step)) with
        | some j =>
            { s with ui_state := { ui with
                installation_tasks := setTaskStatus tasks1 j .Active,
                current_installation_task_index := j,
                installation_task_list_selected := some j } }
        | none =>
            { s with ui_state := { ui with installation_tasks := tasks1 } }
  | none =>
      { s with ui_state := { ui with installation_tasks := tasks1 } }

/-- src/src/app.rs: `App::handle_installation_next_step`.
Rust evaluates `tasks.len() - 1` on `usize`, which panics when the list is
empty; with `Nat` the comparison is simply false then (C9 proves the list is
never empty when this handler runs). -/
def handle_installation_next_step (s : AppState) : AppState :=
  let ui := s.ui_state
  if ui.current_installation_task_index < ui.installation_tasks.length - 1 then
    let tasks1 := setTaskStatus ui.installation_tasks ui.current_installation_task_index .Completed
    let idx1 := ui.current_installation_task_index + 1
    match tasks1.get? idx1 with
    | some next_task =>
        let s1 := { s with ui_state := { ui with
                      installation_tasks := tasks1,
                      current_installation_task_index := idx1,
                      installation_step := some next_task.step } }
        let s2 := update_active_task_status s1
        if next_task.step = .DiskSetup then
          let ui2 := { s2.ui_state with
                        disk_setup_list_selected := some 0,
                        disk_setup_selected_item_path := none }
          match ui2.system_disk_info with
          | some info =>
              let items := build_disk_display_list info
              let ui3 := { ui2 with current_disk_display_items := items }
              match items.head? with
              | some first =>
                  { s2 with ui_state :=
                      { ui3 with disk_setup_selected_item_path := some first.id_path } }
              | none => { s2 with ui_state := ui3 }
          | none => { s2 with ui_state := ui2 }
        else s2
    | none =>
        -- the source's error fallback: roll the index back (it was bumped and
        -- comes back to its old value) and re-activate the task there
        { s with ui_state := { ui with
            installation_tasks :=
              setTaskStatus tasks1 ui.current_installation_task_index .Active } }
  else
    { s with ui_state := { ui with
        installation_tasks :=
          setTaskStatus ui.installation_tasks ui.current_installation_task_index .Completed } }

/-- src/src/app.rs: `App::handle_installation_previous_step`.
The `idx > 0` branch indexes `installation_tasks[idx]` directly in Rust and
would panic out of bounds; `setTaskStatus`/`get?` keep the function total (the
out-of-bounds case is unreachable, see C9). -/
def handle_installation_previous_step (s : AppState) : AppState :=
  let ui := s.ui_state
  if ui.installation_tasks.isEmpty then
    let ui1 := ui.set_current_screen .MainMenu
    { s with ui_state := { ui1 with
        installation_step := none,
        installation_task_list_selected := some 0 } }
  else if ui.current_installation_task_index > 0 then
    let tasks1 := setTaskStatus ui.installation_tasks ui.current_installation_task_index .Pending
    let idx1 := ui.current_installation_task_index - 1
    let tasks2 := setTaskStatus tasks1 idx1 .Active
    match tasks2.get? idx1 with
    | some t =>
        { s with ui_state := { ui with
            installation_tasks := tasks2,
            current_installation_task_index := idx1,
            installation_step := some t.step,
            installation_task_list_selected := some idx1,
            input_buffer := "" } }
    | none => s
  else
    let ui1 := ui.set_current_screen .MainMenu
    { s with ui_state := { ui1 with
        installation_step := none,
        installation_tasks := [],
        installation_task_list_selected := some 0 } }

/-- One step of the cursor in the DiskSetup list, as written inline twice in
`handle_installation_input`: up is `cur - 1` wrapping to `num - 1`, down is
`cur + 1` wrapping to `0`. -/
def diskNavStep (isUp : Bool) (num cur : Nat) : Nat :=
  if isUp then (if cur > 0 then cur - 1 else num - 1)
  else (if cur < num - 1 then cur + 1 else 0)

/-- The check the source loop performs at one index:
`if let Some(item) = items.get(i) { item.selectable } else { false }`. -/
def selectableAt (items : List DisplayListItem) (i : Nat) : Bool :=
  match items.get? i with
  | some item => item.selectable
  | none => false

/-- src/src/app.rs: the `loop` in `handle_installation_input` that searches
for the next selectable row.  The source loop stops when the index walks back
to `initial_try_index` (one full revolution); for an in-range start the walk
returns to `initial` after exactly `items.length` checks, so fuel
`items.length` never runs out before that guard fires — the fuel only makes
the recursion structural. -/
def diskNavGo (items : List DisplayListItem) (isUp : Bool) (initial : Nat) :
    (cur : Nat) → (fuel : Nat) → Option Nat
  | _, 0 => none
  | cur, fuel + 1 =>
      if selectableAt items cur then
        some cur
      else
        let nxt := diskNavStep isUp items.length cur
        if nxt = initial then none
        else diskNavGo items isUp initial nxt fuel

/-- src/src/app.rs: `App::handle_installation_input`. -/
def handle_installation_input (k : KeyCode) (s : AppState) : AppState :=
  match s.ui_state.installation_step with
  | none => s
  | some .UserSetup =>
      match k with
      | .char c =>
          { s with ui_state := { s.ui_state with
              input_buffer := s.ui_state.input_buffer.push c } }
      | .backspace =>
          -- Rust `String::pop`: remove the last character
          { s with ui_state := { s.ui_state with
              input_buffer := s.ui_state.input_buffer.dropRight 1 } }
      | _ => s
  | some .DiskSetup =>
      let ui := s.ui_state
      let ui := if ui.current_disk_display_items.isEmpty then
                  match ui.system_disk_info with
                  | some info =>
                      { ui with current_disk_display_items := build_disk_display_list info }
                  | none => ui
                else ui
      let num := ui.current_disk_display_items.length
      if num = 0 then { s with ui_state := ui }
      else
        let cur := ui.disk_setup_list_selected.getD 0
        let dir : Option Bool :=
          match k with
          | .up => some true
          | .down => some false
          | _ => none
        match dir with
        | none => { s with ui_state := ui }
        | some isUp =>
            let initial := diskNavStep isUp num cur
            match diskNavGo ui.current_disk_display_items isUp initial initial num with
            | some i =>
                { s with ui_state := { ui with
                    disk_setup_list_selected := some i,
                    disk_setup_selected_item_path :=
                      (ui.current_disk_display_items.get? i).map (·.id_path) } }
            | none => { s with ui_state := ui }
  | some _ => s

/-- src/src/app.rs: `App::start_installation_wizard`. -/
def start_installation_wizard (env : Env) (s : AppState) : AppState :=
  let ui1 := { s.ui_state with
                installation_step := some .Welcome,
                current_installation_task_index := 0,
                installation_tasks := initialize_installation_tasks env,
                installation_task_list_selected := some 0 }
  let s1 := update_active_task_status { s with ui_state := ui1 }
  { s1 with ui_state := s1.ui_state.set_current_screen .SystemInstallation }

/-- src/src/app.rs, `handle_key_event` lines 187–206: the `Alt` shortcut block
that runs before everything else.  `some s1` models a branch that `return`s,
`none` a fall-through. -/
def altPhase (k : KeyEvent) (s : AppState) : Option AppState :=
  if !k.alt then none
  else
    match k.code with
    | .char c =>
        if c = 'l' ∨ c = 'L' then
          if s.ui_state.current_screen = .SystemInstallation then
            some { s with ui_state := { s.ui_state with
                     show_log_panel := !s.ui_state.show_log_panel } }
          else none
        else if c = 't' ∨ c = 'T' then
          if s.ui_state.active_dialog.isNone then
            some { s with ui_state := { s.ui_state with
                     active_dialog := some .ThemeSelector,
                     dialog_selected_option := s.ui_state.active_theme_index } }
          else none
        else none
    | _ => none

/-- Shorthand for writing `dialog_selected_option`, used by the dialog key
handlers below. -/
def setDialogSelectedOption (s : AppState) (n : Nat) : AppState :=
  { s with ui_state := { s.ui_state with dialog_selected_option := n } }

/-- src/src/app.rs, `handle_key_event` lines 209–269: the dialog input block,
entered exactly when `active_dialog.is_some()`. -/
def dialogPhase (k : KeyCode) (s : AppState) : AppState :=
  match s.ui_state.active_dialog with
  | some (.YesNo _ _) =>
      if k = .left ∨ k = .char 'h' then
        if s.ui_state.dialog_selected_option = 1 then setDialogSelectedOption s 0 else s
      else if k = .right ∨ k = .char 'l' then
        if s.ui_state.dialog_selected_option = 0 then setDialogSelectedOption s 1 else s
      else if k = .char 'y' ∨ k = .char 'j' then setDialogSelectedOption s 0
      else if k = .char 'n' then setDialogSelectedOption s 1
      else if k = .enter then handle_dialog_confirm s
      else if k = .esc ∨ k = .backspace then handle_dialog_cancel s
      else s
  | some .ThemeSelector =>
      if k = .up ∨ k = .char 'k' then
        if s.ui_state.themes.isEmpty then s
        else if s.ui_state.dialog_selected_option > 0 then
          setDialogSelectedOption s (s.ui_state.dialog_selected_option - 1)
        else setDialogSelectedOption s (s.ui_state.themes.length - 1)
      else if k = .down ∨ k = .char 'j' then
        if s.ui_state.themes.isEmpty then s
        else setDialogSelectedOption s
          ((s.ui_state.dialog_selected_option + 1) % s.ui_state.themes.length)
      else if k = .enter then handle_theme_dialog_confirm s
      else if k = .esc ∨ k = .backspace then handle_dialog_cancel s
      else s
  | none => s

/-- src/src/app.rs, `handle_key_event` lines 281–317: the global Backspace
block (run only when the screen is neither `Message` nor `ConfirmExit`). -/
def backspacePhase (s : AppState) : AppState :=
  match s.ui_state.current_screen with
  | .SystemInstallation => handle_installation_previous_step s
  | .KeyboardSelect => { s with ui_state := s.ui_state.set_current_screen .LanguageSelect }
  | .MainMenu => { s with ui_state := s.ui_state.set_current_screen .KeyboardSelect }
  | _ =>
      if s.ui_state.previous_screen ≠ s.ui_state.current_screen then
        if s.ui_state.current_screen = .LanguageSelect ∧
           s.ui_state.previous_screen = .KeyboardSelect then
          confirm_exit s
        else
          { s with ui_state := s.ui_state.set_current_screen s.ui_state.previous_screen }
      else confirm_exit s

/-- src/src/app.rs, `handle_key_event`: the `Screen::MainMenu` arm of the
per-screen match. -/
def mainMenuPhase (env : Env) (k : KeyCode) (s : AppState) : AppState :=
  match k with
  | .enter =>
      match s.ui_state.selected_menu_item with
      | some menu_item =>
          if menu_item.id = "install" then start_installation_wizard env s
          else if menu_item.id = "backup" then
            { s with ui_state := (s.ui_state.show_message
                (env.text "LANG_BACKUP") (env.text "LANG_NOT_IMPLEMENTED")) }
          else if menu_item.id = "keys" then
            { s with ui_state := (s.ui_state.show_message
                (env.text "LANG_KEYS") (env.text "LANG_NOT_IMPLEMENTED")) }
          else s
      | none => s
  | .down | .right => { s with ui_state := s.ui_state.next_menu_item }
  | .up | .left => { s with ui_state := s.ui_state.previous_menu_item }
  | _ => s

/-- src/src/app.rs, `handle_key_event`: the `Screen::LanguageSelect` arm. -/
def languageSelectPhase (env : Env) (k : KeyCode) (s : AppState) : AppState :=
  match k with
  | .enter =>
      match s.ui_state.selected_language with
      | some lang =>
          let s1 := { s with config := { s.config with current_lang := lang } }
          if env.langOk lang then
            { s1 with ui_state := { s1.ui_state with
                menu_items := create_localized_menu_items env,
                keyboards := if lang = "en" then ["us", "de"] else ["de", "us"],
                selected_index := 0,
                current_screen := .KeyboardSelect } }
          else
            { s1 with ui_state := (s1.ui_state.show_error "Language Error"
                ("Failed to load language: " ++ env.langErr lang)) }
      | none => s
  | .down => { s with ui_state := s.ui_state.next_language }
  | .up => { s with ui_state := s.ui_state.previous_language }
  | _ => s

/-- src/src/app.rs, `handle_key_event`: the `Screen::KeyboardSelect` arm. -/
def keyboardSelectPhase (env : Env) (k : KeyCode) (s : AppState) : AppState :=
  match k with
  | .enter =>
      match s.ui_state.selected_keyboard with
      | some kb =>
          let s1 := { s with config := { s.config with keyboard := kb } }
          if env.kbOk kb then
            { s1 with ui_state := { s1.ui_state with
                selected_index := 0,
                current_screen := .MainMenu } }
          else
            { s1 with ui_state := (s1.ui_state.show_error "Keyboard Error"
                ("Failed to set keyboard layout: " ++ env.kbErr kb)) }
      | none => s
  | .down => { s with ui_state := s.ui_state.next_keyboard }
  | .up => { s with ui_state := s.ui_state.previous_keyboard }
  | _ => s

/-- src/src/app.rs, `handle_key_event`: the `Screen::Message` arm. -/
def messagePhase (k : KeyCode) (s : AppState) : AppState :=
  match k with
  | .enter | .esc | .backspace => { s with ui_state := s.ui_state.clear_message }
  | _ => s

/-- src/src/app.rs, `handle_key_event`: the `Screen::SystemInstallation` arm. -/
def installationScreenPhase (k : KeyCode) (s : AppState) : AppState :=
  match k with
  | .enter =>
      if s.ui_state.active_dialog.isNone then handle_installation_next_step s else s
  | .char c =>
      if c = 'd' ∨ c = 'D' then
        if s.ui_state.active_dialog.isNone then
          { s with ui_state := { s.ui_state with
              active_dialog := some (.YesNo "DIALOG_YESNO_EXAMPLE_TITLE"
                "DIALOG_YESNO_EXAMPLE_MESSAGE"),
              dialog_selected_option := 0 } }
        else s
      else handle_installation_input (.char c) s
  | _ => handle_installation_input k s

/-- src/src/app.rs, `handle_key_event` lines 319–467: the per-screen match. -/
def screenPhase (env : Env) (k : KeyCode) (s : AppState) : AppState :=
  match s.ui_state.current_screen with
  | .MainMenu => mainMenuPhase env k s
  | .LanguageSelect => languageSelectPhase env k s
  | .KeyboardSelect => keyboardSelectPhase env k s
  | .Message => messagePhase k s
  | .ConfirmExit => s
  | .SystemInstallation => installationScreenPhase k s

/-- src/src/app.rs: `App::handle_key_event` — the complete key dispatcher. -/
def handle_key_event (env : Env) (k : KeyEvent) (s : AppState) : AppState :=
  match altPhase k s with
  | some s1 => s1
  | none =>
      if s.ui_state.active_dialog.isSome then dialogPhase k.code s
      else if k.code = .esc ∧ s.ui_state.active_dialog = none ∧
              s.ui_state.current_screen ≠ .ConfirmExit ∧
              s.ui_state.current_screen ≠ .Message then
        confirm_exit s
      else if k.code = .backspace ∧ s.ui_state.current_screen ≠ .Message ∧
              s.ui_state.current_screen ≠ .ConfirmExit then
        backspacePhase s
      else screenPhase env k.code s

/-- src/src/core/disk_info.rs: `create_dummy_system_disk_info`. -/
def create_dummy_system_disk_info : SystemDiskInfo :=
  { disks :=
      [ { path := "/dev/sda"
          model := some "Samsung SSD 970 EVO"
          vendor := some "Samsung"
          size_bytes := 250 * 1024 * 1024 * 1024
          rota := false
          partitions :=
            [ { path := "/dev/sda1"
                part_type_guid := some "C12A7328-F81F-11D2-BA4B-00A0C93EC93B"
                part_label := some "EFI System Partition"
                fs_type := some "vfat"
                fs_uuid := some "A1B2-C3D4"
                size_bytes := 512 * 1024 * 1024
                mount_point := some "/boot/efi"
                content := some .FileSystem },
              { path := "/dev/sda2"
                size_bytes := 249000000000 - 512 * 1024 * 1024
                content := some (.LuksContainer "luks-uuid-sda2" (some "cr_lvm")
                  (some (.LvmPhysicalVolume
                    { path := "/dev/mapper/cr_lvm"
                      pv_uuid := "lvm-pv-uuid-on-cr_lvm"
                      vg_name := some "vg_system"
                      size_bytes := 249000000000 - 512 * 1024 * 1024
                      free_bytes := 10000000000 })))
                fs_type := some "crypto_LUKS" } ] },
        { path := "/dev/sdb"
          model := some "WD Blue HDD"
          vendor := some "Western Digital"
          size_bytes := 1000 * 1024 * 1024 * 1024
          rota := true
          partitions :=
            [ { path := "/dev/sdb1"
                fs_type := some "ntfs"
                fs_label := some "WindowsData"
                size_bytes := 500 * 1024 * 1024 * 1024
                mount_point := none
                content := some .FileSystem },
              { path := "/dev/sdb2"
                size_bytes := 500 * 1024 * 1024 * 1024
                content := some .Unknown } ] },
        { path := "/dev/nvme0n1"
          model := some "Kingston NVMe"
          vendor := some "Kingston"
          size_bytes := 500 * 1024 * 1024 * 1024
          rota := false
          partitions :=
            [ { path := "/dev/nvme0n1p1"
                fs_type := some "linux-swap"
                size_bytes := 16 * 1024 * 1024 * 1024
                content := some .Swap },
              { path := "/dev/nvme0n1p2"
                fs_type := some "LVM2_member"
                size_bytes := 480 * 1024 * 1024 * 1024
                content := some (.LvmPhysicalVolume "lvm-pv-uuid-on-nvme"
                  (some "vg_data")) } ] } ]
    lvm_volume_groups :=
      [ { name := "vg_system"
          uuid := "vg-uuid-system"
          size_bytes := 240000000000
          free_bytes := 10000000000
          physical_volumes := ["/dev/mapper/cr_lvm"]
          logical_volumes :=
            [ { name := "lv_root"
                path := "/dev/vg_system/lv_root"
                uuid := "lv-uuid-root"
                size_bytes := 100 * 1024 * 1024 * 1024
                fs_type := some "ext4"
                mount_point := some "/" },
              { name := "lv_home"
                path := "/dev/vg_system/lv_home"
                uuid := "lv-uuid-home"
                size_bytes := 130 * 1024 * 1024 * 1024
                fs_type := some "ext4"
                mount_point := some "/home" } ] },
        { name := "vg_data"
          uuid := "vg-uuid-data"
          size_bytes := 480 * 1024 * 1024 * 1024
          free_bytes := 0
          physical_volumes := ["/dev/nvme0n1p2"]
          logical_volumes :=
            [ { name := "lv_games"
                path := "/dev/vg_data/lv_games"
                uuid := "lv-uuid-games"
                size_bytes := 480 * 1024 * 1024 * 1024
                fs_type := some "btrfs"
                mount_point := some "/mnt/games" } ] } ] }

/-- src/src/ui/tui.rs: `UiState::new`. -/
def UiState.new (menu_items : List MenuItem) : UiState :=
  { current_screen := .LanguageSelect
    menu_items := menu_items
    selected_index := 0
    languages := ["de", "en"]
    keyboards := ["de", "us"]
    message := none
    previous_screen := .LanguageSelect
    installation_step := none
    installation_config := {}
    installation_tasks := []
    current_installation_task_index := 0
    show_log_panel := false
    input_buffer := ""
    installation_task_list_selected := some 0
    system_disk_info := none
    disk_setup_selected_item_path := none
    disk_setup_list_selected := none
    current_disk_display_items := []
    is_loading_disks := false
    log_buffer := []
    task_description_scroll_offset := 0
    task_description_total_lines := 0
    active_dialog := none
    dialog_selected_option := 0
    themes := themeCatalog
    active_theme_index :=
      (themeCatalog.findIdx? (fun theme => decide (theme.name = "Terminal Spirit"))).getD 0 }

/-- src/src/app.rs: `App::new` (terminal handle and tick clock omitted; the
initial `load_language` call only logs on failure, so its oracle outcome has
no state effect). -/
def App.new (env : Env) (config : Config) : AppState :=
  let menu_items := create_localized_menu_items env
  let ui := UiState.new menu_items
  let ui := { ui with system_disk_info := some create_dummy_system_disk_info }
  let ui := if create_dummy_system_disk_info.disks.isEmpty then ui
            else { ui with disk_setup_list_selected := some 0 }
  let ui := { ui with keyboards :=
                if config.current_lang = "en" then ["us", "de"] else ["de", "us"] }
  { config := config, ui_state := ui, should_quit := false }

/-- The states the application can be in: the initial state of `App::new` for
any configuration and environment, closed under `handle_key_event` for any
key event and any outcome of the external oracles (the event loop delivers
key events one at a time and performs no other state change). -/
inductive Reachable : AppState → Prop
  | init (env : Env) (config : Config) : Reachable (App.new env config)
  | step (s : AppState) (env : Env) (k : KeyEvent) :
      Reachable s → Reachable (handle_key_event env k s)

/-! ### Concrete fixtures used by witnesses and counterexamples -/

/-- A concrete environment: every external call succeeds and `get_text`
resolves every key to itself (the documented fallback of the gateway). -/
def demoEnv : Env :=
  { langOk := fun _ => true
    kbOk := fun _ => true
    langErr := fun _ => "boom"
    kbErr := fun _ => "boom"
    text := fun key => key }

/-- `demoEnv` with a failing language switch. -/
def failLangEnv : Env := { demoEnv with langOk := fun _ => false }

/-- The default configuration of `Config::default`. -/
def demoConfig : Config := { current_lang := "de", keyboard := "de" }

/-- The application state right after startup. -/
def demoApp : AppState := App.new demoEnv demoConfig

/-- A state on the `SystemInstallation` screen at task index 0, as produced by
starting the installation wizard from the startup state. -/
def demoWizard : AppState := start_installation_wizard demoEnv demoApp

/-- `demoWizard` moved to task index 1 (DiskSetup) with some text already typed
into the free-text input buffer. -/
def demoWizardTyped : AppState :=
  { demoWizard with ui_state :=
      { demoWizard.ui_state with
          input_buffer := "ab"
          current_installation_task_index := 1 } }

/-- `demoWizard` (task index 0) with some text already typed into the
free-text input buffer. -/
def demoWizardTyped0 : AppState :=
  { demoWizard with ui_state :=
      { demoWizard.ui_state with input_buffer := "ab" } }

/-- The startup state driven to the main menu by two Enter presses, with some
text already typed into the free-text input buffer. -/
def demoAppTyped : AppState :=
  let m := handle_key_event demoEnv { code := .enter, alt := false }
    (handle_key_event demoEnv { code := .enter, alt := false } demoApp)
  { m with ui_state := { m.ui_state with input_buffer := "ab" } }

/-! ### C7: menu cursor stays in range and wraps at the boundaries -/

/-- A sequence of menu-cursor moves: `true` is `next_menu_item`, `false` is
`previous_menu_item`. -/
def applyMenuOps (ops : List Bool) (s : UiState) : UiState :=
  match ops with
  | [] => s
  | op :: rest =>
      applyMenuOps rest (if op then s.next_menu_item else s.previous_menu_item)

lemma next_menu_item_menu_items (s : UiState) :
    s.next_menu_item.menu_items = s.menu_items := rfl

lemma previous_menu_item_menu_items (s : UiState) :
    s.previous_menu_item.menu_items = s.menu_items := by
  unfold UiState.previous_menu_item
  split <;> rfl

lemma applyMenuOps_menu_items (ops : List Bool) (s : UiState) :
    (applyMenuOps ops s).menu_items = s.menu_items := by
  induction ops generalizing s with
  | nil => rfl
  | cons op rest ih =>
      unfold applyMenuOps
      rw [ih]
      split <;> simp [next_menu_item_menu_items, previous_menu_item_menu_items]

lemma next_menu_item_lt (s : UiState) (h : s.menu_items ≠ []) :
    s.next_menu_item.selected_index < s.menu_items.length := by
  unfold UiState.next_menu_item
  exact Nat.mod_lt _ (List.length_pos.mpr h)

lemma previous_menu_item_lt (s : UiState) (h : s.menu_items ≠ [])
    (hidx : s.selected_index < s.menu_items.length) :
    s.previous_menu_item.selected_index < s.menu_items.length := by
  unfold UiState.previous_menu_item
  have hpos : 0 < s.menu_items.length := List.length_pos.mpr h
  split <;> simp <;> omega

/-- C7: for every sequence of `next_menu_item`/`previous_menu_item` calls the
selected index stays inside `[0, len)` (given a non-empty menu and an in-range
start, as holds from startup where the index is 0), `next_menu_item` wraps
from index `len - 1` to `0`, and `previous_menu_item` wraps from index `0` to
`len - 1`. -/
theorem menu_navigation_wraps :
    (∀ (s : UiState) (ops : List Bool), s.menu_items ≠ [] →
       s.selected_index < s.menu_items.length →
       (applyMenuOps ops s).selected_index < s.menu_items.length)
    ∧ (∀ s : UiState, s.menu_items ≠ [] →
       s.selected_index = s.menu_items.length - 1 →
       s.next_menu_item.selected_index = 0)
    ∧ (∀ s : UiState, s.selected_index = 0 →
       s.previous_menu_item.selected_index = s.menu_items.length - 1) := by
  refine ⟨?_, ?_, ?_⟩
  · intro s ops hne hidx
    induction ops generalizing s with
    | nil => simpa [applyMenuOps] using hidx
    | cons op rest ih =>
        unfold applyMenuOps
        by_cases hop : op
        · subst hop
          have h1 := next_menu_item_lt s hne
          have h2 := ih s.next_menu_item
            (by rw [next_menu_item_menu_items]; exact hne)
            (by rw [next_menu_item_menu_items]; exact h1)
          simpa [next_menu_item_menu_items] using h2
        · simp only [hop, if_neg]
          have h1 := previous_menu_item_lt s hne hidx
          have h2 := ih s.previous_menu_item
            (by rw [previous_menu_item_menu_items]; exact hne)
            (by rw [previous_menu_item_menu_items]; exact h1)
          simpa [previous_menu_item_menu_items] using h2
  · intro s hne hidx
    unfold UiState.next_menu_item
    have hpos : 0 < s.menu_items.length := List.length_pos.mpr hne
    simp only [hidx]
    rw [Nat.sub_add_cancel hpos, Nat.mod_self]
  · intro s hidx
    unfold UiState.previous_menu_item
    simp [hidx]

/-- C7 witness: from the startup state (three menu items, cursor at 0), one
`previous_menu_item` call lands on index 2. -/
theorem menu_navigation_wraps_witness :
    demoApp.ui_state.previous_menu_item.selected_index =
      demoApp.ui_state.menu_items.length - 1 ∧
    demoApp.ui_state.menu_items.length - 1 = 2 ∧
    (applyMenuOps [false, true, true, true] demoApp.ui_state).selected_index <
      demoApp.ui_state.menu_items.length :=
  ⟨menu_navigation_wraps.2.2 demoApp.ui_state rfl,
   rfl,
   menu_navigation_wraps.1 demoApp.ui_state [false, true, true, true]
     (by decide) (by decide)⟩

/-! ### C3: confirm semantics of YesNo dialogs -/

/-- C3: while a YesNo dialog is active, confirming (Enter) with selection 1
("No") leaves the quit flag unchanged and closes the dialog; for the reserved
exit-confirmation title key `LANG_CONFIRM_TITLE`, confirming with selection 0
("Yes") always sets the quit flag; and confirming a YesNo dialog carrying any
other title key leaves the quit flag unchanged and only closes the dialog. -/
theorem confirm_exit_dialog_quit_semantics (env : Env) (s : AppState)
    (t m : String) (hd : s.ui_state.active_dialog = some (.YesNo t m)) :
    (s.ui_state.dialog_selected_option = 1 →
       (handle_key_event env ⟨.enter, false⟩ s).should_quit = s.should_quit ∧
       (handle_key_event env ⟨.enter, false⟩ s).ui_state.active_dialog = none)
    ∧ (t = "LANG_CONFIRM_TITLE" → s.ui_state.dialog_selected_option = 0 →
       (handle_key_event env ⟨.enter, false⟩ s).should_quit = true)
    ∧ (t ≠ "LANG_CONFIRM_TITLE" →
       (handle_key_event env ⟨.enter, false⟩ s).should_quit = s.should_quit ∧
       (handle_key_event env ⟨.enter, false⟩ s).ui_state.active_dialog = none) := by
  have hred : handle_key_event env ⟨.enter, false⟩ s = handle_dialog_confirm s := by
    unfold handle_key_event altPhase
    simp [hd, dialogPhase]
  rw [hred]
  unfold handle_dialog_confirm
  rw [hd]
  refine ⟨?_, ?_, ?_⟩
  · intro hopt
    by_cases ht : t = "LANG_CONFIRM_TITLE" <;> simp [ht, hopt]
  · intro ht hopt
    simp [ht, hopt]
  · intro ht
    by_cases hopt : s.ui_state.dialog_selected_option = 0 <;> simp [ht, hopt]

/-- C3 witness: in the concrete exit-confirmation dialog opened from the
wizard start state (selection defaults to 1, "No"), confirming keeps the quit
flag and closes the dialog. -/
theorem confirm_exit_dialog_quit_semantics_witness :
    (handle_key_event demoEnv ⟨.enter, false⟩ (confirm_exit demoApp)).should_quit =
      (confirm_exit demoApp).should_quit ∧
    (handle_key_event demoEnv ⟨.enter, false⟩
      (confirm_exit demoApp)).ui_state.active_dialog = none :=
  (confirm_exit_dialog_quit_semantics demoEnv (confirm_exit demoApp)
    "LANG_CONFIRM_TITLE" "LANG_EXIT_CONFIRM" rfl).1 rfl

/-! ### C4: Backspace at task index 0 exits the wizard -/

/-- C4: on the `SystemInstallation` screen with task index 0 and no active
dialog, Backspace exits the wizard: the screen becomes `MainMenu`, the
installation step is cleared to `none`, and the task list becomes empty. -/
theorem backspace_at_first_task_exits_wizard (env : Env) (s : AppState)
    (hscr : s.ui_state.current_screen = .SystemInstallation)
    (hdlg : s.ui_state.active_dialog = none)
    (hidx : s.ui_state.current_installation_task_index = 0) :
    (handle_key_event env ⟨.backspace, false⟩ s).ui_state.current_screen = .MainMenu ∧
    (handle_key_event env ⟨.backspace, false⟩ s).ui_state.installation_step = none ∧
    (handle_key_event env ⟨.backspace, false⟩ s).ui_state.installation_tasks = [] := by
  have hred : handle_key_event env ⟨.backspace, false⟩ s =
      handle_installation_previous_step s := by
    unfold handle_key_event altPhase
    simp [hdlg, hscr, backspacePhase]
  rw [hred]
  unfold handle_installation_previous_step
  by_cases he : s.ui_state.installation_tasks.isEmpty
  · have : s.ui_state.installation_tasks = [] := List.isEmpty_iff.mp he
    simp [he, UiState.set_current_screen, this]
  · simp [he, hidx, UiState.set_current_screen]

/-- C4 witness: Backspace from the concrete wizard start state lands on the
main menu with no step and no tasks. -/
theorem backspace_at_first_task_exits_wizard_witness :
    (handle_key_event demoEnv ⟨.backspace, false⟩ demoWizard).ui_state.current_screen =
      .MainMenu ∧
    (handle_key_event demoEnv ⟨.backspace, false⟩
      demoWizard).ui_state.installation_step = none ∧
    (handle_key_event demoEnv ⟨.backspace, false⟩
      demoWizard).ui_state.installation_tasks = [] :=
  backspace_at_first_task_exits_wizard demoEnv demoWizard rfl rfl rfl

/-! ### C2: a dialog owns key input (frame property) -/

/-- Everything a dialog key handler is allowed to leave alone: every field of
the state except the dialog fields (`active_dialog`, `dialog_selected_option`),
the committed theme index and the quit flag. -/
def UntouchedByDialog (s s1 : AppState) : Prop :=
  s1.ui_state.current_screen = s.ui_state.current_screen ∧
  s1.ui_state.menu_items = s.ui_state.menu_items ∧
  s1.ui_state.selected_index = s.ui_state.selected_index ∧
  s1.ui_state.languages = s.ui_state.languages ∧
  s1.ui_state.keyboards = s.ui_state.keyboards ∧
  s1.ui_state.message = s.ui_state.message ∧
  s1.ui_state.previous_screen = s.ui_state.previous_screen ∧
  s1.ui_state.installation_step = s.ui_state.installation_step ∧
  s1.ui_state.installation_config = s.ui_state.installation_config ∧
  s1.ui_state.installation_tasks = s.ui_state.installation_tasks ∧
  s1.ui_state.current_installation_task_index =
    s.ui_state.current_installation_task_index ∧
  s1.ui_state.show_log_panel = s.ui_state.show_log_panel ∧
  s1.ui_state.input_buffer = s.ui_state.input_buffer ∧
  s1.ui_state.installation_task_list_selected =
    s.ui_state.installation_task_list_selected ∧
  s1.ui_state.system_disk_info = s.ui_state.system_disk_info ∧
  s1.ui_state.disk_setup_selected_item_path =
    s.ui_state.disk_setup_selected_item_path ∧
  s1.ui_state.disk_setup_list_selected = s.ui_state.disk_setup_list_selected ∧
  s1.ui_state.current_disk_display_items = s.ui_state.current_disk_display_items ∧
  s1.ui_state.is_loading_disks = s.ui_state.is_loading_disks ∧
  s1.ui_state.log_buffer = s.ui_state.log_buffer ∧
  s1.ui_state.task_description_scroll_offset =
    s.ui_state.task_description_scroll_offset ∧
  s1.ui_state.task_description_total_lines =
    s.ui_state.task_description_total_lines ∧
  s1.ui_state.themes = s.ui_state.themes ∧
  s1.config = s.config

lemma untouchedByDialog_refl (s : AppState) : UntouchedByDialog s s := by
  unfold UntouchedByDialog
  exact ⟨rfl, rfl, rfl, rfl, rfl, rfl, rfl, rfl, rfl, rfl, rfl, rfl, rfl, rfl,
    rfl, rfl, rfl, rfl, rfl, rfl, rfl, rfl, rfl, rfl⟩

lemma setDialogSelectedOption_frame (s : AppState) (n : Nat) :
    UntouchedByDialog s (setDialogSelectedOption s n) :=
  untouchedByDialog_refl s

lemma handle_dialog_cancel_frame (s : AppState) :
    UntouchedByDialog s (handle_dialog_cancel s) :=
  untouchedByDialog_refl s

lemma handle_dialog_confirm_frame (s : AppState) :
    UntouchedByDialog s (handle_dialog_confirm s) := by
  unfold handle_dialog_confirm
  rcases hd : s.ui_state.active_dialog with _ | d
  · exact untouchedByDialog_refl s
  · cases d with
    | YesNo t m =>
        simp only
        split_ifs <;> exact untouchedByDialog_refl s
    | ThemeSelector => exact untouchedByDialog_refl s

lemma handle_theme_dialog_confirm_frame (s : AppState) :
    UntouchedByDialog s (handle_theme_dialog_confirm s) := by
  unfold handle_theme_dialog_confirm
  rcases hd : s.ui_state.active_dialog with _ | d
  · exact untouchedByDialog_refl s
  · cases d with
    | YesNo t m => exact untouchedByDialog_refl s
    | ThemeSelector =>
        simp only
        split_ifs <;> exact untouchedByDialog_refl s

lemma dialogPhase_frame (k : KeyCode) (s : AppState) :
    UntouchedByDialog s (dialogPhase k s) := by
  unfold dialogPhase
  rcases hd : s.ui_state.active_dialog with _ | d
  · exact untouchedByDialog_refl s
  · cases d with
    | YesNo t m =>
        simp only
        split_ifs <;>
          first
          | exact untouchedByDialog_refl s
          | exact setDialogSelectedOption_frame s _
          | exact handle_dialog_confirm_frame s
    | ThemeSelector =>
        simp only
        split_ifs <;>
          first
          | exact untouchedByDialog_refl s
          | exact setDialogSelectedOption_frame s _
          | exact handle_theme_dialog_confirm_frame s

/-- C2 (amended): while a dialog is active, every key event other than the
Alt+L log-panel toggle on the `SystemInstallation` screen is handled
exclusively by the dialog handler: no field except the dialog fields, the
committed theme index and the quit flag changes.  (The Alt+L shortcut runs
before the dialog handler and toggles `show_log_panel` even while a dialog is
active — the counterexample below.) -/
theorem dialog_captures_input (env : Env) (k : KeyEvent) (s : AppState)
    (d : DialogType) (hd : s.ui_state.active_dialog = some d)
    (hx : ¬(k.alt = true ∧ (k.code = .char 'l' ∨ k.code = .char 'L') ∧
            s.ui_state.current_screen = .SystemInstallation)) :
    UntouchedByDialog s (handle_key_event env k s) := by
  have haltp : altPhase k s = none := by
    unfold altPhase
    by_cases halt : k.alt
    · rcases hk : k.code with _ | _ | _ | _ | _ | _ | _ | c | _ <;> simp [halt]
      split_ifs with h1 h2 h3 h4
      · exact absurd ⟨halt, by simp [hk, h1], h2⟩ hx
      · rfl
      · simp [hd] at h4
      · rfl
      · rfl
    · simp [halt]
  unfold handle_key_event
  rw [haltp]
  simp only [hd, Option.isSome_some, if_true]
  exact dialogPhase_frame k.code s

/-- C2 witness: with the exit-confirmation dialog open on the startup screen,
pressing the plain character n is fully captured by the dialog. -/
theorem dialog_captures_input_witness :
    UntouchedByDialog (confirm_exit demoApp)
      (handle_key_event demoEnv ⟨.char 'n', false⟩ (confirm_exit demoApp)) :=
  dialog_captures_input demoEnv ⟨.char 'n', false⟩ (confirm_exit demoApp)
    (.YesNo "LANG_CONFIRM_TITLE" "LANG_EXIT_CONFIRM") rfl (by simp)

/-- C2 counterexample: with the exit-confirmation dialog open on the
`SystemInstallation` screen, the Alt+L key event is not captured by the dialog:
it toggles `show_log_panel`, a field outside the permitted set. -/
theorem dialog_captures_input_counterexample :
    (confirm_exit demoWizard).ui_state.active_dialog.isSome = true ∧
    (confirm_exit demoWizard).ui_state.show_log_panel = false ∧
    (handle_key_event demoEnv ⟨.char 'l', true⟩
      (confirm_exit demoWizard)).ui_state.show_log_panel = true :=
  ⟨rfl, rfl, rfl⟩

/-! ### C5: failed language switch shows an error message screen -/

/-- C5 (amended): pressing Enter on `LanguageSelect` when the language switch
fails shows an error `Message` screen with `previous_screen = LanguageSelect`
(so dismissing it with Enter returns to `LanguageSelect` with no message
left); the menu items, the keyboard candidate list and the selected index are
unchanged — but the stored language configuration is *not* unchanged: it has
already been set to the selected language before the failing call and keeps
that value. -/
theorem language_switch_failure_shows_error (env : Env) (s : AppState)
    (lang : String)
    (hscr : s.ui_state.current_screen = .LanguageSelect)
    (hdlg : s.ui_state.active_dialog = none)
    (hsel : s.ui_state.selected_language = some lang)
    (hfail : env.langOk lang = false) :
    (handle_key_event env ⟨.enter, false⟩ s).ui_state.current_screen = .Message ∧
    (handle_key_event env ⟨.enter, false⟩ s).ui_state.previous_screen =
      .LanguageSelect ∧
    (handle_key_event env ⟨.enter, false⟩ s).ui_state.message =
      some ("Error: Language Error", "Failed to load language: " ++ env.langErr lang) ∧
    (handle_key_event env ⟨.enter, false⟩ s).ui_state.menu_items =
      s.ui_state.menu_items ∧
    (handle_key_event env ⟨.enter, false⟩ s).ui_state.keyboards =
      s.ui_state.keyboards ∧
    (handle_key_event env ⟨.enter, false⟩ s).ui_state.selected_index =
      s.ui_state.selected_index ∧
    (handle_key_event env ⟨.enter, false⟩ s).config.current_lang = lang ∧
    (handle_key_event env ⟨.enter, false⟩
      (handle_key_event env ⟨.enter, false⟩ s)).ui_state.current_screen =
      .LanguageSelect ∧
    (handle_key_event env ⟨.enter, false⟩
      (handle_key_event env ⟨.enter, false⟩ s)).ui_state.message = none := by
  have hred : handle_key_event env ⟨.enter, false⟩ s =
      { s with
        config := { s.config with current_lang := lang },
        ui_state := { s.ui_state with
          previous_screen := s.ui_state.current_screen,
          message := some ("Error: Language Error",
            "Failed to load language: " ++ env.langErr lang),
          current_screen := .Message } } := by
    unfold handle_key_event altPhase
    simp [hdlg, hscr, screenPhase, languageSelectPhase, hsel, hfail,
      UiState.show_error, UiState.show_message]
  rw [hred]
  refine ⟨rfl, by simp [hscr], rfl, rfl, rfl, rfl, rfl, ?_, ?_⟩
  · unfold handle_key_event altPhase
    simp [hdlg, screenPhase, messagePhase, UiState.clear_message, hscr]
  · unfold handle_key_event altPhase
    simp [hdlg, screenPhase, messagePhase, UiState.clear_message, hscr]

/-- The startup state with the language cursor moved to the second entry
("en"). -/
def demoAppLangEn : AppState :=
  { demoApp with ui_state := { demoApp.ui_state with selected_index := 1 } }

/-- C5 witness: from the startup state with the cursor on the second language
("en") and a failing switch, the error message screen appears and dismissal
returns to `LanguageSelect`. -/
theorem language_switch_failure_shows_error_witness :
    (handle_key_event failLangEnv ⟨.enter, false⟩
      demoAppLangEn).ui_state.current_screen = .Message ∧
    (handle_key_event failLangEnv ⟨.enter, false⟩
      (handle_key_event failLangEnv ⟨.enter, false⟩
        demoAppLangEn)).ui_state.current_screen = .LanguageSelect :=
  ⟨(language_switch_failure_shows_error failLangEnv demoAppLangEn "en"
      rfl rfl rfl rfl).1,
   (language_switch_failure_shows_error failLangEnv demoAppLangEn "en"
      rfl rfl rfl rfl).2.2.2.2.2.2.2.1⟩

/-- C5 counterexample: the claim asserts the stored current-language
configuration is unchanged after a failed switch; in fact it is overwritten
with the selected language before the failure is detected.  Starting from
language "de" with "en" selected and a failing switch, the config ends up at
"en" while the error message is shown. -/
theorem language_switch_failure_config_counterexample :
    demoAppLangEn.config.current_lang = "de" ∧
    (handle_key_event failLangEnv ⟨.enter, false⟩
      demoAppLangEn).config.current_lang = "en" ∧
    (handle_key_event failLangEnv ⟨.enter, false⟩
      demoAppLangEn).ui_state.current_screen = .Message :=
  ⟨rfl, rfl, rfl⟩

/-! ### C8: display list of a one-disk LUKS-mapped LVM snapshot -/

/-- A string hierarchically extends another: it is the other followed by a
non-empty suffix. -/
def pathStrictExtension (child parent : String) : Prop :=
  ∃ t, t ≠ "" ∧ child = parent ++ t

lemma length_pos_of_ne_empty {t : String} (h : t ≠ "") : 0 < t.length := by
  cases t with
  | mk data =>
      cases data with
      | nil => exact absurd rfl h
      | cons c cs => simp [String.length]

lemma ne_of_length_lt {a b : String} (h : a.length < b.length) : a ≠ b := by
  intro he
  rw [he] at h
  exact Nat.lt_irrefl _ h

lemma pathStrictExtension_length {c p : String} (h : pathStrictExtension c p) :
    p.length < c.length := by
  obtain ⟨t, ht, he⟩ := h
  have := length_pos_of_ne_empty ht
  rw [he, String.length_append]
  omega

lemma pathStrictExtension_append (p t : String) (ht : t ≠ "") :
    pathStrictExtension (p ++ t) p := ⟨t, ht, rfl⟩

lemma slash_append_ne_empty (u v : String) (hu : u ≠ "") : u ++ v ≠ "" := by
  intro he
  have h1 : (u ++ v).length = 0 := by rw [he]; rfl
  rw [String.length_append] at h1
  exact absurd (by omega : u.length = 0)
    (fun h0 => hu (by
      cases u with
      | mk data =>
          cases data with
          | nil => rfl
          | cons c cs => simp [String.length] at h0))

/-- C8 (amended): for a snapshot with exactly one disk holding exactly one
partition whose content is a mapped LUKS container around an LVM PV, and no
volume groups, `build_disk_display_list` yields exactly the four rows disk
header (non-selectable), partition (selectable), LUKS container
(non-selectable, because mapped), LVM PV (non-selectable), with pairwise
distinct `id_path`s forming a hierarchical chain — *provided* the partition
path properly extends the disk path (true of every real `/dev` naming; the
unamended claim fails for degenerate paths, see the counterexample). -/
theorem luks_lvm_snapshot_display_list (disk : PhysicalDisk) (p : Partition)
    (uuid mn : String) (pv : LvmPhysicalVolumeData)
    (hparts : disk.partitions = [p])
    (hcontent : p.content = some (.LuksContainer uuid (some mn)
      (some (.LvmPhysicalVolume pv))))
    (hpfx : pathStrictExtension p.path disk.path) :
    (build_disk_display_list { disks := [disk], lvm_volume_groups := [] }).length = 4 ∧
    (build_disk_display_list { disks := [disk], lvm_volume_groups := [] }).map
      (fun r => r.item_type) =
      [.Disk, .Partition, .LuksContainer, .LvmPhysicalVolume] ∧
    (build_disk_display_list { disks := [disk], lvm_volume_groups := [] }).map
      (fun r => r.selectable) = [false, true, false, false] ∧
    (build_disk_display_list { disks := [disk], lvm_volume_groups := [] }).map
      (fun r => r.id_path) =
      [disk.path, p.path, p.path ++ "/luks/" ++ uuid,
       p.path ++ "/luks/" ++ uuid ++ "/lvm_pv/" ++ pv.pv_uuid] ∧
    ((build_disk_display_list { disks := [disk], lvm_volume_groups := [] }).map
      (fun r => r.id_path)).Nodup ∧
    pathStrictExtension (p.path ++ "/luks/" ++ uuid) p.path ∧
    pathStrictExtension (p.path ++ "/luks/" ++ uuid ++ "/lvm_pv/" ++ pv.pv_uuid)
      (p.path ++ "/luks/" ++ uuid) := by
  have hrows : build_disk_display_list { disks := [disk], lvm_volume_groups := [] } =
      [⟨disk.path, "💾" ++ " " ++ disk.path ++ " (" ++ (disk.model.getD "N/A") ++
          ", " ++ format_size disk.size_bytes ++ ")", 0, .Disk, false,
          some disk.size_bytes⟩,
       ⟨p.path, "  " ++ "└─ " ++ "📄" ++ " " ++ p.path ++ " (" ++
          format_size p.size_bytes ++ ", " ++ String.intercalate ", "
            ((match p.fs_type with
              | some fs_type => [fs_type]
              | none => []) ++
             (match p.fs_label.orElse (fun _ => p.part_label) with
              | some label => ["\x27" ++ label ++ "\x27"]
              | none => []) ++
             (match p.mount_point with
              | some mount_point => ["at \x27" ++ mount_point ++ "\x27"]
              | none => [])) ++ ")", 1, .Partition, true, some p.size_bytes⟩,
       ⟨p.path ++ "/luks/" ++ uuid, "  " ++ "  └─ " ++ "🔒" ++
          " LUKS Container (" ++ uuid ++ ")" ++ ("  " ++ mn), 2, .LuksContainer,
          false, some p.size_bytes⟩,
       ⟨p.path ++ "/luks/" ++ uuid ++ "/lvm_pv/" ++ pv.pv_uuid,
          "  " ++ "    └─ " ++ "📦" ++ " LVM PV on " ++ mn ++ " (for VG: " ++
          (pv.vg_name.getD "Unknown") ++ ")", 3, .LvmPhysicalVolume, false,
          some pv.size_bytes⟩] := by
    simp [build_disk_display_list, diskRows, partitionRows, hparts, hcontent,
      partitionContentRows, luksContainerRows, luksMappedContentRows]
  have hlen1 : disk.path.length < p.path.length := pathStrictExtension_length hpfx
  have hext2 : pathStrictExtension (p.path ++ "/luks/" ++ uuid) p.path := by
    rw [String.append_assoc]
    exact pathStrictExtension_append _ _ (slash_append_ne_empty "/luks/" uuid (by decide))
  have hext3 : pathStrictExtension
      (p.path ++ "/luks/" ++ uuid ++ "/lvm_pv/" ++ pv.pv_uuid)
      (p.path ++ "/luks/" ++ uuid) := by
    rw [String.append_assoc (p.path ++ "/luks/" ++ uuid)]
    exact pathStrictExtension_append _ _
      (slash_append_ne_empty "/lvm_pv/" pv.pv_uuid (by decide))
  have hlen2 := pathStrictExtension_length hext2
  have hlen3 := pathStrictExtension_length hext3
  have h01 : disk.path ≠ p.path := ne_of_length_lt hlen1
  have h02 : disk.path ≠ p.path ++ "/luks/" ++ uuid := ne_of_length_lt (by omega)
  have h03 : disk.path ≠ p.path ++ "/luks/" ++ uuid ++ "/lvm_pv/" ++ pv.pv_uuid :=
    ne_of_length_lt (by omega)
  have h12 : p.path ≠ p.path ++ "/luks/" ++ uuid := ne_of_length_lt hlen2
  have h13 : p.path ≠ p.path ++ "/luks/" ++ uuid ++ "/lvm_pv/" ++ pv.pv_uuid :=
    ne_of_length_lt (by omega)
  have h23 : p.path ++ "/luks/" ++ uuid ≠
      p.path ++ "/luks/" ++ uuid ++ "/lvm_pv/" ++ pv.pv_uuid :=
    ne_of_length_lt hlen3
  refine ⟨by rw [hrows]; rfl, by rw [hrows]; rfl, by rw [hrows]; rfl,
    by rw [hrows]; rfl, ?_, hext2, hext3⟩
  rw [hrows]
  simp [List.nodup_cons, h01, h02, h03, h12, h13, h23]

/-- C8 witness: a concrete such snapshot (`/dev/sda` with `/dev/sda1`). -/
theorem luks_lvm_snapshot_display_list_witness :
    ((build_disk_display_list
      { disks := [{ path := "/dev/sda", partitions :=
          [{ path := "/dev/sda1",
             content := some (.LuksContainer "u" (some "m")
               (some (.LvmPhysicalVolume ⟨"pp", "pvu", none, 7, 3⟩))) }] }],
        lvm_volume_groups := [] }).map (fun r => r.selectable)) =
      [false, true, false, false] ∧
    (((build_disk_display_list
      { disks := [{ path := "/dev/sda", partitions :=
          [{ path := "/dev/sda1",
             content := some (.LuksContainer "u" (some "m")
               (some (.LvmPhysicalVolume ⟨"pp", "pvu", none, 7, 3⟩))) }] }],
        lvm_volume_groups := [] }).map (fun r => r.id_path)).Nodup) :=
  ⟨(luks_lvm_snapshot_display_list
      { path := "/dev/sda", partitions :=
          [{ path := "/dev/sda1",
             content := some (.LuksContainer "u" (some "m")
               (some (.LvmPhysicalVolume ⟨"pp", "pvu", none, 7, 3⟩))) }] }
      { path := "/dev/sda1",
        content := some (.LuksContainer "u" (some "m")
          (some (.LvmPhysicalVolume ⟨"pp", "pvu", none, 7, 3⟩))) }
      "u" "m" ⟨"pp", "pvu", none, 7, 3⟩ rfl rfl ⟨"1", by decide, rfl⟩).2.2.1,
   (luks_lvm_snapshot_display_list
      { path := "/dev/sda", partitions :=
          [{ path := "/dev/sda1",
             content := some (.LuksContainer "u" (some "m")
               (some (.LvmPhysicalVolume ⟨"pp", "pvu", none, 7, 3⟩))) }] }
      { path := "/dev/sda1",
        content := some (.LuksContainer "u" (some "m")
          (some (.LvmPhysicalVolume ⟨"pp", "pvu", none, 7, 3⟩))) }
      "u" "m" ⟨"pp", "pvu", none, 7, 3⟩ rfl rfl ⟨"1", by decide, rfl⟩).2.2.2.2.1⟩

/-- C8 counterexample: for the degenerate (but type-correct) snapshot whose
only partition has the same path as its disk, the four produced `id_path`s
are *not* all distinct, refuting the unamended universally-quantified claim. -/
theorem luks_lvm_snapshot_display_list_counterexample :
    ¬ (((build_disk_display_list
      { disks := [{ path := "d", partitions :=
          [{ path := "d",
             content := some (.LuksContainer "u" (some "m")
               (some (.LvmPhysicalVolume ⟨"pp", "pvu", none, 7, 3⟩))) }] }],
        lvm_volume_groups := [] }).map (fun r => r.id_path)).Nodup) := by
  decide

/-! ### C6: DiskSetup cursor navigation skips non-selectable rows -/

/-- The index reached after `j` steps of the DiskSetup cursor walk starting at
`start`. -/
def walkIdx (isUp : Bool) (n start j : Nat) : Nat :=
  (diskNavStep isUp n)^[j] start

lemma walkIdx_zero (isUp : Bool) (n start : Nat) : walkIdx isUp n start 0 = start := rfl

lemma walkIdx_succ (isUp : Bool) (n start j : Nat) :
    walkIdx isUp n start (j + 1) = diskNavStep isUp n (walkIdx isUp n start j) := by
  unfold walkIdx
  exact Function.iterate_succ_apply' _ _ _

lemma diskNavStep_lt (isUp : Bool) {n cur : Nat} (hn : 0 < n) (hc : cur < n) :
    diskNavStep isUp n cur < n := by
  unfold diskNavStep
  split_ifs <;> omega

lemma walkIdx_lt (isUp : Bool) {n start : Nat} (hn : 0 < n) (hs : start < n)
    (j : Nat) : walkIdx isUp n start j < n := by
  induction j with
  | zero => simpa [walkIdx_zero] using hs
  | succ j ih => rw [walkIdx_succ]; exact diskNavStep_lt _ hn ih

lemma diskNavStep_cast (isUp : Bool) {n cur : Nat} (hn : 0 < n) (hc : cur < n) :
    ((diskNavStep isUp n cur : ZMod n)) =
      (cur : ZMod n) + (if isUp then (-1 : ZMod n) else 1) := by
  haveI : NeZero n := ⟨by omega⟩
  unfold diskNavStep
  by_cases hu : isUp = true
  · rw [if_pos hu, if_pos hu]
    by_cases h0 : cur > 0
    · rw [if_pos h0, Nat.cast_sub (by omega : 1 ≤ cur)]
      push_cast
      ring
    · rw [if_neg h0]
      have hc0 : cur = 0 := by omega
      rw [hc0, Nat.cast_sub (by omega : 1 ≤ n)]
      simp [ZMod.natCast_self]
  · rw [if_neg hu, if_neg hu]
    by_cases h1 : cur < n - 1
    · rw [if_pos h1]
      push_cast
      ring
    · rw [if_neg h1]
      have hc1 : cur = n - 1 := by omega
      rw [hc1, Nat.cast_sub (by omega : 1 ≤ n)]
      simp [ZMod.natCast_self]

lemma walkIdx_cast (isUp : Bool) {n start : Nat} (hn : 0 < n) (hs : start < n)
    (j : Nat) :
    ((walkIdx isUp n start j : ZMod n)) =
      (start : ZMod n) + (j : ZMod n) * (if isUp then (-1 : ZMod n) else 1) := by
  induction j with
  | zero => simp [walkIdx_zero]
  | succ j ih =>
      rw [walkIdx_succ, diskNavStep_cast isUp hn (walkIdx_lt isUp hn hs j), ih]
      push_cast
      ring

lemma walkIdx_inj (isUp : Bool) {n start : Nat} (hn : 0 < n) (hs : start < n)
    {a b : Nat} (ha : a < n) (hb : b < n)
    (h : walkIdx isUp n start a = walkIdx isUp n start b) : a = b := by
  haveI : NeZero n := ⟨by omega⟩
  have hc : ((walkIdx isUp n start a : ZMod n)) = ((walkIdx isUp n start b : ZMod n)) := by
    rw [h]
  rw [walkIdx_cast isUp hn hs, walkIdx_cast isUp hn hs] at hc
  have hab : (a : ZMod n) = (b : ZMod n) := by
    by_cases hu : isUp = true
    · rw [if_pos hu, mul_neg_one, mul_neg_one] at hc
      exact neg_inj.mp (add_left_cancel hc)
    · rw [if_neg hu, mul_one, mul_one] at hc
      exact add_left_cancel hc
  have hva := ZMod.val_cast_of_lt ha
  have hvb := ZMod.val_cast_of_lt hb
  rw [← hva, ← hvb, hab]

lemma walkIdx_surj (isUp : Bool) {n start : Nat} (hn : 0 < n) (hs : start < n)
    {i : Nat} (hi : i < n) : ∃ j, j < n ∧ walkIdx isUp n start j = i := by
  let f : Fin n → Fin n := fun j => ⟨walkIdx isUp n start j.1, walkIdx_lt isUp hn hs j.1⟩
  have hinj : Function.Injective f := by
    intro a b hab
    exact Fin.ext (walkIdx_inj isUp hn hs a.2 b.2 (congrArg Fin.val hab))
  have hsurj : Function.Surjective f := Finite.surjective_of_injective hinj
  obtain ⟨j, hj⟩ := hsurj ⟨i, hi⟩
  exact ⟨j.1, j.2, congrArg Fin.val hj⟩

lemma diskNavGo_eq_none (items : List DisplayListItem) (isUp : Bool)
    (initial : Nat) (h : ∀ i, selectableAt items i = false) :
    ∀ fuel cur, diskNavGo items isUp initial cur fuel = none := by
  intro fuel
  induction fuel with
  | zero => intro cur; rfl
  | succ f ih =>
      intro cur
      rw [diskNavGo]
      simp only [h cur, Bool.false_eq_true, if_false]
      split
      · rfl
      · exact ih _

lemma diskNavGo_finds (items : List DisplayListItem) (isUp : Bool)
    (initial : Nat) (hn : 0 < items.length) (hi : initial < items.length)
    (q : Nat) (hq : q < items.length)
    (hsel : selectableAt items (walkIdx isUp items.length initial q) = true)
    (hmin : ∀ j, j < q → selectableAt items (walkIdx isUp items.length initial j) = false) :
    diskNavGo items isUp initial initial items.length =
      some (walkIdx isUp items.length initial q) := by
  suffices H : ∀ d t, t ≤ q → q - t = d →
      diskNavGo items isUp initial (walkIdx isUp items.length initial t)
        (items.length - t) =
        some (walkIdx isUp items.length initial q) by
    have h0 := H q 0 (by omega) (by omega)
    simpa [walkIdx_zero] using h0
  intro d
  induction d with
  | zero =>
      intro t ht hd
      have hteq : t = q := by omega
      subst hteq
      obtain ⟨f, hf⟩ : ∃ f, items.length - t = f + 1 := ⟨items.length - t - 1, by omega⟩
      rw [hf, diskNavGo]
      simp [hsel]
  | succ d ih =>
      intro t ht hd
      have htq : t < q := by omega
      obtain ⟨f, hf⟩ : ∃ f, items.length - t = f + 1 := ⟨items.length - t - 1, by omega⟩
      rw [hf, diskNavGo]
      simp only [hmin t htq, Bool.false_eq_true, if_false]
      rw [← walkIdx_succ]
      have hguard : walkIdx isUp items.length initial (t + 1) ≠ initial := by
        intro hg
        have hg0 : walkIdx isUp items.length initial (t + 1) =
            walkIdx isUp items.length initial 0 := by
          rw [walkIdx_zero]; exact hg
        have := walkIdx_inj isUp hn hi (by omega) (by omega) hg0
        omega
      simp only [hguard, if_false]
      have hrec := ih (t + 1) (by omega) (by omega)
      have hfuel : items.length - (t + 1) = f := by omega
      rw [hfuel] at hrec
      exact hrec

lemma handle_installation_input_disk_nav (s : AppState) (k : KeyCode)
    (isUp : Bool)
    (hk : (k = .up ∧ isUp = true) ∨ (k = .down ∧ isUp = false))
    (hstep : s.ui_state.installation_step = some .DiskSetup)
    (hne : s.ui_state.current_disk_display_items ≠ []) :
    handle_installation_input k s =
      (match diskNavGo s.ui_state.current_disk_display_items isUp
          (diskNavStep isUp s.ui_state.current_disk_display_items.length
            (s.ui_state.disk_setup_list_selected.getD 0))
          (diskNavStep isUp s.ui_state.current_disk_display_items.length
            (s.ui_state.disk_setup_list_selected.getD 0))
          s.ui_state.current_disk_display_items.length with
       | some i =>
          { s with ui_state := { s.ui_state with
              disk_setup_list_selected := some i,
              disk_setup_selected_item_path :=
                (s.ui_state.current_disk_display_items.get? i).map
                  (fun r => r.id_path) } }
       | none => s) := by
  have hie : s.ui_state.current_disk_display_items.isEmpty = false := by
    simpa [List.isEmpty_iff] using hne
  have hlen : s.ui_state.current_disk_display_items.length ≠ 0 := by
    simpa [List.length_eq_zero] using hne
  rcases hk with ⟨hk, hu⟩ | ⟨hk, hu⟩ <;> subst hk <;> subst hu <;>
    · unfold handle_installation_input
      simp only [hstep, hie, Bool.false_eq_true, if_false, hlen]

/-- C6: in the DiskSetup step with a non-empty display list (and the cursor in
range, as everywhere reachable), Up/Down first steps once in the pressed
direction with wraparound and then keeps stepping in that direction past
non-selectable rows: the selected row becomes the first selectable row of the
directed cyclic walk (found within a single revolution, `q < n`); if no row is
selectable at all, the cursor and the selected id_path do not move (the
revolution guard stops the loop). -/
theorem disk_setup_navigation (s : AppState) (k : KeyCode) (isUp : Bool)
    (hk : (k = .up ∧ isUp = true) ∨ (k = .down ∧ isUp = false))
    (hstep : s.ui_state.installation_step = some .DiskSetup)
    (hne : s.ui_state.current_disk_display_items ≠ [])
    (hcur : s.ui_state.disk_setup_list_selected.getD 0 <
      s.ui_state.current_disk_display_items.length) :
    ((∀ item ∈ s.ui_state.current_disk_display_items, item.selectable = false) →
      (handle_installation_input k s).ui_state.disk_setup_list_selected =
        s.ui_state.disk_setup_list_selected ∧
      (handle_installation_input k s).ui_state.disk_setup_selected_item_path =
        s.ui_state.disk_setup_selected_item_path) ∧
    ((∃ item ∈ s.ui_state.current_disk_display_items, item.selectable = true) →
      ∃ q, q < s.ui_state.current_disk_display_items.length ∧
        selectableAt s.ui_state.current_disk_display_items
          (walkIdx isUp s.ui_state.current_disk_display_items.length
            (diskNavStep isUp s.ui_state.current_disk_display_items.length
              (s.ui_state.disk_setup_list_selected.getD 0)) q) = true ∧
        (∀ j, j < q → selectableAt s.ui_state.current_disk_display_items
          (walkIdx isUp s.ui_state.current_disk_display_items.length
            (diskNavStep isUp s.ui_state.current_disk_display_items.length
              (s.ui_state.disk_setup_list_selected.getD 0)) j) = false) ∧
        (handle_installation_input k s).ui_state.disk_setup_list_selected =
          some (walkIdx isUp s.ui_state.current_disk_display_items.length
            (diskNavStep isUp s.ui_state.current_disk_display_items.length
              (s.ui_state.disk_setup_list_selected.getD 0)) q) ∧
        (handle_installation_input k s).ui_state.disk_setup_selected_item_path =
          (s.ui_state.current_disk_display_items.get?
            (walkIdx isUp s.ui_state.current_disk_display_items.length
              (diskNavStep isUp s.ui_state.current_disk_display_items.length
                (s.ui_state.disk_setup_list_selected.getD 0)) q)).map
            (fun r => r.id_path)) := by
  have hred := handle_installation_input_disk_nav s k isUp hk hstep hne
  have hn : 0 < s.ui_state.current_disk_display_items.length :=
    List.length_pos.mpr hne
  have hstart : diskNavStep isUp s.ui_state.current_disk_display_items.length
      (s.ui_state.disk_setup_list_selected.getD 0) <
      s.ui_state.current_disk_display_items.length :=
    diskNavStep_lt _ hn hcur
  constructor
  · intro hall
    have hzero : ∀ i, selectableAt s.ui_state.current_disk_display_items i = false := by
      intro i
      unfold selectableAt
      cases hg : s.ui_state.current_disk_display_items.get? i with
      | none => rfl
      | some item => exact hall item (List.get?_mem hg)
    rw [hred, diskNavGo_eq_none _ _ _ hzero]
    exact ⟨rfl, rfl⟩
  · intro ⟨item, hmem, hselitem⟩
    obtain ⟨i, hig⟩ := List.get?_of_mem hmem
    have hilt : i < s.ui_state.current_disk_display_items.length :=
      List.get?_eq_some.mp hig |>.1
    have hiat : selectableAt s.ui_state.current_disk_display_items i = true := by
      unfold selectableAt
      rw [hig]
      exact hselitem
    obtain ⟨j, hjlt, hjw⟩ := walkIdx_surj isUp hn hstart hilt
    have hex : ∃ m, selectableAt s.ui_state.current_disk_display_items
        (walkIdx isUp s.ui_state.current_disk_display_items.length
          (diskNavStep isUp s.ui_state.current_disk_display_items.length
            (s.ui_state.disk_setup_list_selected.getD 0)) m) = true :=
      ⟨j, by rw [hjw]; exact hiat⟩
    refine ⟨Nat.find hex, ?_, Nat.find_spec hex, ?_, ?_, ?_⟩
    · exact Nat.lt_of_le_of_lt (Nat.find_min' hex (by rw [hjw]; exact hiat)) hjlt
    · intro m hm
      have := Nat.find_min hex hm
      simpa using this
    · rw [hred, diskNavGo_finds _ _ _ hn hstart (Nat.find hex)
        (Nat.lt_of_le_of_lt (Nat.find_min' hex (by rw [hjw]; exact hiat)) hjlt)
        (Nat.find_spec hex)
        (fun m hm => by simpa using Nat.find_min hex hm)]
    · rw [hred, diskNavGo_finds _ _ _ hn hstart (Nat.find hex)
        (Nat.lt_of_le_of_lt (Nat.find_min' hex (by rw [hjw]; exact hiat)) hjlt)
        (Nat.find_spec hex)
        (fun m hm => by simpa using Nat.find_min hex hm)]

/-- A small DiskSetup state: three display rows of which only the middle one
is selectable, cursor on row 0. -/
def diskNavDemo : AppState :=
  { config := demoConfig
    ui_state := { UiState.new [] with
      current_screen := .SystemInstallation
      installation_step := some .DiskSetup
      current_disk_display_items :=
        [⟨"a", "A", 0, .Disk, false, none⟩,
         ⟨"b", "B", 1, .Partition, true, none⟩,
         ⟨"c", "C", 2, .LvmPhysicalVolume, false, none⟩]
      disk_setup_list_selected := some 0 }
    should_quit := false }

/-- C6 witness: pressing Down in `diskNavDemo` finds the first selectable row
of the downward walk. -/
theorem disk_setup_navigation_witness :
    ∃ q, q < diskNavDemo.ui_state.current_disk_display_items.length ∧
      selectableAt diskNavDemo.ui_state.current_disk_display_items
        (walkIdx false diskNavDemo.ui_state.current_disk_display_items.length
          (diskNavStep false diskNavDemo.ui_state.current_disk_display_items.length
            (diskNavDemo.ui_state.disk_setup_list_selected.getD 0)) q) = true ∧
      (∀ j, j < q → selectableAt diskNavDemo.ui_state.current_disk_display_items
        (walkIdx false diskNavDemo.ui_state.current_disk_display_items.length
          (diskNavStep false diskNavDemo.ui_state.current_disk_display_items.length
            (diskNavDemo.ui_state.disk_setup_list_selected.getD 0)) j) = false) ∧
      (handle_installation_input .down diskNavDemo).ui_state.disk_setup_list_selected =
        some (walkIdx false diskNavDemo.ui_state.current_disk_display_items.length
          (diskNavStep false diskNavDemo.ui_state.current_disk_display_items.length
            (diskNavDemo.ui_state.disk_setup_list_selected.getD 0)) q) ∧
      (handle_installation_input .down diskNavDemo).ui_state.disk_setup_selected_item_path =
        (diskNavDemo.ui_state.current_disk_display_items.get?
          (walkIdx false diskNavDemo.ui_state.current_disk_display_items.length
            (diskNavStep false diskNavDemo.ui_state.current_disk_display_items.length
              (diskNavDemo.ui_state.disk_setup_list_selected.getD 0)) q)).map
          (fun r => r.id_path) :=
  (disk_setup_navigation diskNavDemo .down false (Or.inr ⟨rfl, rfl⟩) rfl
    (by decide) (by decide)).2
    ⟨⟨"b", "B", 1, .Partition, true, none⟩, by decide, rfl⟩

/-! ### C1: exactly one Active task (wizard transition invariant) -/

/-- The wizard states reachable from `start_installation_wizard`: the
transitions are next-step (Enter) and previous-step (Backspace), which the
dispatcher invokes exactly while the screen is `SystemInstallation`. -/
inductive WizardReach (env : Env) : AppState → Prop
  | start (s : AppState) : WizardReach env (start_installation_wizard env s)
  | next (s : AppState) : WizardReach env s →
      s.ui_state.current_screen = .SystemInstallation →
      WizardReach env (handle_installation_next_step s)
  | prev (s : AppState) : WizardReach env s →
      s.ui_state.current_screen = .SystemInstallation →
      WizardReach env (handle_installation_previous_step s)

/-- The wizard step wired to each task-list index by
`initialize_installation_tasks`. -/
def stepOfIdx : Nat → InstallationStep
  | 0 => .Welcome
  | 1 => .DiskSetup
  | 2 => .UserSetup
  | _ => .Summary

/-- The wizard task list with the statuses given by `st`. -/
def wizardTasks (env : Env) (st : Nat → InstallationTaskStatus) :
    List InstallationTaskItem :=
  [ ⟨"welcome", env.text "TASK_WELCOME", .Welcome, st 0⟩,
    ⟨"disk_setup", env.text "TASK_DISK_SETUP", .DiskSetup, st 1⟩,
    ⟨"user_setup", env.text "TASK_USER_SETUP", .UserSetup, st 2⟩,
    ⟨"summary", env.text "TASK_SUMMARY", .Summary, st 3⟩ ]

/-- The status pattern the wizard maintains: everything before the current
index is `Completed`, the current index is `Active` (or `Completed` when the
final next-step has fired, flag `b`), everything after is `Pending`. -/
def wizardStatuses (idx : Nat) (b : Bool) : Nat → InstallationTaskStatus :=
  fun i =>
    if i < idx then .Completed
    else if i = idx then (if b then .Completed else .Active)
    else .Pending

/-- The shape of every in-wizard state: current index in range, installation
step matching the current task, screen `SystemInstallation`, and the status
pattern `wizardStatuses`. -/
def WizardShape (env : Env) (s : AppState) : Prop :=
  ∃ idx b, idx < 4 ∧ (b = true → idx = 3) ∧
    s.ui_state.current_installation_task_index = idx ∧
    s.ui_state.installation_step = some (stepOfIdx idx) ∧
    s.ui_state.current_screen = .SystemInstallation ∧
    s.ui_state.installation_tasks = wizardTasks env (wizardStatuses idx b)

/-- The invariant: either the wizard has been exited (empty task list) or the
state has the wizard shape. -/
def WizardInv (env : Env) (s : AppState) : Prop :=
  s.ui_state.installation_tasks = [] ∨ WizardShape env s

lemma wizardShape_start (env : Env) (s : AppState) :
    WizardShape env (start_installation_wizard env s) := by
  refine ⟨0, false, by omega, by simp, ?_, ?_, ?_, ?_⟩ <;>
    simp [start_installation_wizard, update_active_task_status,
      initialize_installation_tasks, UiState.set_current_screen, stepOfIdx,
      wizardTasks, wizardStatuses]

lemma wizardShape_next (env : Env) (s : AppState) (h : WizardShape env s) :
    WizardShape env (handle_installation_next_step s) := by
  obtain ⟨idx, b, hidx, hb, hcur, hstep, hscr, htasks⟩ := h
  interval_cases idx
  · -- idx = 0 : advance into DiskSetup, which also rebuilds the display list
    have hbf : b = false := by
      cases b
      · rfl
      · exact absurd (hb rfl) (by omega)
    subst hbf
    cases hsd : s.ui_state.system_disk_info with
    | none =>
        refine ⟨1, false, by omega, by simp, ?_, ?_, ?_, ?_⟩ <;>
          simp [handle_installation_next_step, htasks, hcur, hstep, hscr,
            setTaskStatus, update_active_task_status, wizardTasks,
            wizardStatuses, stepOfIdx, hsd]
    | some info =>
        cases hh : (build_disk_display_list info).head? with
        | none =>
            refine ⟨1, false, by omega, by simp, ?_, ?_, ?_, ?_⟩ <;>
              simp [handle_installation_next_step, htasks, hcur, hstep, hscr,
                setTaskStatus, update_active_task_status, wizardTasks,
                wizardStatuses, stepOfIdx, hsd, hh]
        | some first =>
            refine ⟨1, false, by omega, by simp, ?_, ?_, ?_, ?_⟩ <;>
              simp [handle_installation_next_step, htasks, hcur, hstep, hscr,
                setTaskStatus, update_active_task_status, wizardTasks,
                wizardStatuses, stepOfIdx, hsd, hh]
  · -- idx = 1 : advance into UserSetup
    have hbf : b = false := by
      cases b
      · rfl
      · exact absurd (hb rfl) (by omega)
    subst hbf
    refine ⟨2, false, by omega, by simp, ?_, ?_, ?_, ?_⟩ <;>
      simp [handle_installation_next_step, htasks, hcur, hstep, hscr,
        setTaskStatus, update_active_task_status, wizardTasks,
        wizardStatuses, stepOfIdx]
  · -- idx = 2 : advance into Summary
    have hbf : b = false := by
      cases b
      · rfl
      · exact absurd (hb rfl) (by omega)
    subst hbf
    refine ⟨3, false, by omega, by simp, ?_, ?_, ?_, ?_⟩ <;>
      simp [handle_installation_next_step, htasks, hcur, hstep, hscr,
        setTaskStatus, update_active_task_status, wizardTasks,
        wizardStatuses, stepOfIdx]
  · -- idx = 3 : last task, it is (re-)marked Completed and nothing advances
    refine ⟨3, true, by omega, by simp, ?_, ?_, ?_, ?_⟩ <;>
      cases b <;>
        simp [handle_installation_next_step, htasks, hcur, hstep, hscr,
          setTaskStatus, update_active_task_status, wizardTasks,
          wizardStatuses, stepOfIdx]

lemma wizardShape_prev (env : Env) (s : AppState) (h : WizardShape env s) :
    WizardInv env (handle_installation_previous_step s) := by
  obtain ⟨idx, b, hidx, hb, hcur, hstep, hscr, htasks⟩ := h
  interval_cases idx
  · -- idx = 0 : exit the wizard, the task list is cleared
    left
    simp [handle_installation_previous_step, htasks, hcur, wizardTasks,
      UiState.set_current_screen]
  · have hbf : b = false := by
      cases b
      · rfl
      · exact absurd (hb rfl) (by omega)
    subst hbf
    refine Or.inr ⟨0, false, by omega, by simp, ?_, ?_, ?_, ?_⟩ <;>
      simp [handle_installation_previous_step, htasks, hcur, hscr,
        setTaskStatus, wizardTasks, wizardStatuses, stepOfIdx]
  · have hbf : b = false := by
      cases b
      · rfl
      · exact absurd (hb rfl) (by omega)
    subst hbf
    refine Or.inr ⟨1, false, by omega, by simp, ?_, ?_, ?_, ?_⟩ <;>
      simp [handle_installation_previous_step, htasks, hcur, hscr,
        setTaskStatus, wizardTasks, wizardStatuses, stepOfIdx]
  · refine Or.inr ⟨2, false, by omega, by simp, ?_, ?_, ?_, ?_⟩ <;>
      cases b <;>
        simp [handle_installation_previous_step, htasks, hcur, hscr,
          setTaskStatus, wizardTasks, wizardStatuses, stepOfIdx]

lemma next_step_keeps_empty (s : AppState)
    (he : s.ui_state.installation_tasks = []) :
    (handle_installation_next_step s).ui_state.installation_tasks = [] := by
  simp [handle_installation_next_step, he, setTaskStatus]

lemma prev_step_keeps_empty (s : AppState)
    (he : s.ui_state.installation_tasks = []) :
    (handle_installation_previous_step s).ui_state.installation_tasks = [] := by
  simp [handle_installation_previous_step, he, UiState.set_current_screen]

lemma wizardReach_inv (env : Env) (s : AppState) (h : WizardReach env s) :
    WizardInv env s := by
  induction h with
  | start s => exact Or.inr (wizardShape_start env s)
  | next s hr hscr ih =>
      rcases ih with he | hsh
      · exact Or.inl (next_step_keeps_empty s he)
      · exact Or.inr (wizardShape_next env s hsh)
  | prev s hr hscr ih =>
      rcases ih with he | hsh
      · exact Or.inl (prev_step_keeps_empty s he)
      · exact wizardShape_prev env s hsh

/-- C1 (amended): for the task list created by `start_installation_wizard`,
after every sequence of next-step and previous-step wizard transitions either
the list is empty (the wizard was exited), or exactly one task is `Active` and
its step equals `installation_step`, or — after the next-step taken at the
last task index — every task is `Completed` and no task is `Active`.  The
unamended claim ("exactly one Active unless the list is empty") fails in the
all-Completed case, see the counterexample. -/
theorem wizard_active_task_unique (env : Env) (s : AppState)
    (h : WizardReach env s) :
    s.ui_state.installation_tasks = [] ∨
    (s.ui_state.installation_tasks.countP
        (fun t => decide (t.status = .Active)) = 1 ∧
      ∀ t ∈ s.ui_state.installation_tasks, t.status = .Active →
        some t.step = s.ui_state.installation_step) ∨
    (∀ t ∈ s.ui_state.installation_tasks, t.status = .Completed) := by
  rcases wizardReach_inv env s h with he | ⟨idx, b, hidx, hb, hcur, hstep, hscr, htasks⟩
  · exact Or.inl he
  · by_cases hbt : b = true
    · subst hbt
      have h3 := hb rfl
      subst h3
      refine Or.inr (Or.inr ?_)
      intro t ht
      rw [htasks] at ht
      simp [wizardTasks] at ht
      rcases ht with h | h | h | h <;> subst h <;> simp [wizardStatuses]
    · have hbf : b = false := by
        cases b
        · rfl
        · exact absurd rfl hbt
      subst hbf
      refine Or.inr (Or.inl ⟨?_, ?_⟩)
      · rw [htasks]
        interval_cases idx <;> simp [wizardTasks, wizardStatuses]
      · intro t ht
        rw [htasks] at ht
        interval_cases idx <;>
          · simp [wizardTasks] at ht
            rcases ht with h | h | h | h <;> subst h <;>
              simp [wizardStatuses, hstep, stepOfIdx]

/-- C1 witness: the state right after starting the wizard satisfies the
amended invariant. -/
theorem wizard_active_task_unique_witness :
    demoWizard.ui_state.installation_tasks = [] ∨
    (demoWizard.ui_state.installation_tasks.countP
        (fun t => decide (t.status = .Active)) = 1 ∧
      ∀ t ∈ demoWizard.ui_state.installation_tasks, t.status = .Active →
        some t.step = demoWizard.ui_state.installation_step) ∨
    (∀ t ∈ demoWizard.ui_state.installation_tasks, t.status = .Completed) :=
  wizard_active_task_unique demoEnv demoWizard (WizardReach.start demoApp)

/-- The wizard start state driven through four next-steps: three advance
Welcome → DiskSetup → UserSetup → Summary, the fourth marks the last task
Completed. -/
def wizardAfterFourNexts : AppState :=
  handle_installation_next_step (handle_installation_next_step
    (handle_installation_next_step (handle_installation_next_step demoWizard)))

/-- C1 counterexample: after the concrete sequence of four next-step
transitions (a legitimate wizard trace, witnessed by `WizardReach`), the task
list is non-empty yet contains *zero* Active tasks, refuting "exactly one task
has status Active (unless the list is empty)". -/
theorem wizard_active_task_counterexample :
    WizardReach demoEnv wizardAfterFourNexts ∧
    wizardAfterFourNexts.ui_state.installation_tasks ≠ [] ∧
    wizardAfterFourNexts.ui_state.installation_tasks.countP
      (fun t => decide (t.status = .Active)) = 0 :=
  ⟨WizardReach.next _ (WizardReach.next _ (WizardReach.next _
      (WizardReach.next _ (WizardReach.start demoApp) rfl) rfl) rfl) rfl,
   by decide, by decide⟩

/-! ### C9: reachable SystemInstallation states have a task under the index -/

/-- The inductive invariant for C9: on the `SystemInstallation` screen the
task list is non-empty and the current index is in bounds; the states that
could sneak back into `SystemInstallation` through `previous_screen`
(`Message` dismissal and the LanguageSelect Backspace fallback) never carry it
there. -/
def MasterInv (s : AppState) : Prop :=
  (s.ui_state.current_screen = .SystemInstallation →
     s.ui_state.installation_tasks ≠ [] ∧
     s.ui_state.current_installation_task_index <
       s.ui_state.installation_tasks.length) ∧
  (s.ui_state.current_screen = .Message →
     s.ui_state.previous_screen ≠ .SystemInstallation) ∧
  (s.ui_state.current_screen = .LanguageSelect →
     s.ui_state.previous_screen ≠ .SystemInstallation)

/-- The fields of the state none of the purely-modal handlers (Alt shortcuts,
dialogs, confirm-exit) touch. -/
def NavFrame (s s1 : AppState) : Prop :=
  s1.ui_state.current_screen = s.ui_state.current_screen ∧
  s1.ui_state.previous_screen = s.ui_state.previous_screen ∧
  s1.ui_state.installation_tasks = s.ui_state.installation_tasks ∧
  s1.ui_state.current_installation_task_index =
    s.ui_state.current_installation_task_index ∧
  s1.ui_state.input_buffer = s.ui_state.input_buffer

lemma navFrame_refl (s : AppState) : NavFrame s s := ⟨rfl, rfl, rfl, rfl, rfl⟩

lemma untouchedByDialog_navFrame (s s1 : AppState) (h : UntouchedByDialog s s1) :
    NavFrame s s1 :=
  ⟨h.1, h.2.2.2.2.2.2.1, h.2.2.2.2.2.2.2.2.2.1, h.2.2.2.2.2.2.2.2.2.2.1,
   h.2.2.2.2.2.2.2.2.2.2.2.2.1⟩

lemma navFrame_masterInv {s s1 : AppState} (hf : NavFrame s s1)
    (h : MasterInv s) : MasterInv s1 := by
  obtain ⟨h1, h2, h3, h4, h5⟩ := hf
  exact ⟨fun hx => by
      rw [h1] at hx
      rw [h3, h4]
      exact h.1 hx,
    fun hx => by rw [h1] at hx; rw [h2]; exact h.2.1 hx,
    fun hx => by rw [h1] at hx; rw [h2]; exact h.2.2 hx⟩

lemma altPhase_navFrame (k : KeyEvent) (s s1 : AppState)
    (h : altPhase k s = some s1) : NavFrame s s1 := by
  obtain ⟨code, alt⟩ := k
  unfold altPhase at h
  by_cases halt : !alt
  · rw [if_pos halt] at h
    exact Option.noConfusion h
  · rw [if_neg halt] at h
    cases code with
    | char c =>
        dsimp only at h
        by_cases h1 : c = 'l' ∨ c = 'L'
        · rw [if_pos h1] at h
          by_cases h2 : s.ui_state.current_screen = .SystemInstallation
          · rw [if_pos h2] at h
            cases h
            exact ⟨rfl, rfl, rfl, rfl, rfl⟩
          · rw [if_neg h2] at h
            exact Option.noConfusion h
        · rw [if_neg h1] at h
          by_cases h3 : c = 't' ∨ c = 'T'
          · rw [if_pos h3] at h
            by_cases h4 : s.ui_state.active_dialog.isNone
            · rw [if_pos h4] at h
              cases h
              exact ⟨rfl, rfl, rfl, rfl, rfl⟩
            · rw [if_neg h4] at h
              exact Option.noConfusion h
          · rw [if_neg h3] at h
            exact Option.noConfusion h
    | enter => exact Option.noConfusion h
    | esc => exact Option.noConfusion h
    | backspace => exact Option.noConfusion h
    | up => exact Option.noConfusion h
    | down => exact Option.noConfusion h
    | left => exact Option.noConfusion h
    | right => exact Option.noConfusion h
    | other => exact Option.noConfusion h

lemma confirm_exit_navFrame (s : AppState) : NavFrame s (confirm_exit s) := by
  unfold confirm_exit
  split_ifs <;> exact ⟨rfl, rfl, rfl, rfl, rfl⟩

lemma setTaskStatus_length (t : List InstallationTaskItem) (i : Nat)
    (st : InstallationTaskStatus) : (setTaskStatus t i st).length = t.length := by
  unfold setTaskStatus
  cases t.get? i <;> simp

lemma update_active_task_status_nav (s : AppState) :
    (update_active_task_status s).ui_state.current_screen =
      s.ui_state.current_screen ∧
    (update_active_task_status s).ui_state.previous_screen =
      s.ui_state.previous_screen ∧
    (update_active_task_status s).ui_state.input_buffer =
      s.ui_state.input_buffer ∧
    (update_active_task_status s).ui_state.installation_tasks.length =
      s.ui_state.installation_tasks.length ∧
    ((update_active_task_status s).ui_state.current_installation_task_index =
       s.ui_state.current_installation_task_index ∨
     (update_active_task_status s).ui_state.current_installation_task_index <
       (update_active_task_status s).ui_state.installation_tasks.length) := by
  unfold update_active_task_status
  dsimp only
  cases hget : (s.ui_state.installation_tasks.map
      (fun t => if t.status = .Active then { t with status := .Pending } else t)).get?
      s.ui_state.current_installation_task_index with
  | none => exact ⟨rfl, rfl, rfl, by simp, Or.inl rfl⟩
  | some t =>
      dsimp only
      split_ifs with hm
      · exact ⟨rfl, rfl, rfl, by simp, Or.inl rfl⟩
      · cases hfind : (s.ui_state.installation_tasks.map
            (fun t => if t.status = .Active then { t with status := .Pending } else t)).findIdx?
            (fun tk => decide (some tk.step = s.ui_state.installation_step)) with
        | none => exact ⟨rfl, rfl, rfl, by simp, Or.inl rfl⟩
        | some j =>
            dsimp only
            refine ⟨rfl, rfl, rfl, by simp [setTaskStatus_length], Or.inr ?_⟩
            have hj : j < (s.ui_state.installation_tasks.map
                (fun t => if t.status = .Active then { t with status := .Pending } else t)).length :=
              (List.findIdx?_eq_some_iff_findIdx_eq.mp hfind).1
            simpa [setTaskStatus_length] using hj

lemma handle_installation_next_step_nav (s : AppState) :
    (handle_installation_next_step s).ui_state.current_screen =
      s.ui_state.current_screen ∧
    (handle_installation_next_step s).ui_state.previous_screen =
      s.ui_state.previous_screen ∧
    (handle_installation_next_step s).ui_state.input_buffer =
      s.ui_state.input_buffer ∧
    (handle_installation_next_step s).ui_state.installation_tasks.length =
      s.ui_state.installation_tasks.length ∧
    (s.ui_state.current_installation_task_index <
        s.ui_state.installation_tasks.length →
      (handle_installation_next_step s).ui_state.current_installation_task_index <
        (handle_installation_next_step s).ui_state.installation_tasks.length) := by
  unfold handle_installation_next_step
  dsimp only
  split_ifs with hlt
  · cases hget : (setTaskStatus s.ui_state.installation_tasks
        s.ui_state.current_installation_task_index .Completed).get?
        (s.ui_state.current_installation_task_index + 1) with
    | none =>
        refine ⟨rfl, rfl, rfl, by simp [setTaskStatus_length], fun hx => ?_⟩
        simpa [setTaskStatus_length] using hx
    | some next_task =>
        dsimp only
        have hidx2 : s.ui_state.current_installation_task_index + 1 <
            s.ui_state.installation_tasks.length := by
          have h1 := List.get?_eq_some.mp hget |>.1
          rwa [setTaskStatus_length] at h1
        have hua := update_active_task_status_nav
          { s with ui_state := { s.ui_state with
              installation_tasks := setTaskStatus s.ui_state.installation_tasks
                s.ui_state.current_installation_task_index .Completed,
              current_installation_task_index :=
                s.ui_state.current_installation_task_index + 1,
              installation_step := some next_task.step } }
        generalize hs2 : update_active_task_status
          { s with ui_state := { s.ui_state with
              installation_tasks := setTaskStatus s.ui_state.installation_tasks
                s.ui_state.current_installation_task_index .Completed,
              current_installation_task_index :=
                s.ui_state.current_installation_task_index + 1,
              installation_step := some next_task.step } } = s2 at hua ⊢
        dsimp only at hua
        split_ifs with hds
        · cases hsd : s2.ui_state.system_disk_info with
          | none =>
              try dsimp only
              refine ⟨hua.1, hua.2.1, hua.2.2.1, ?_, fun hx => ?_⟩
              · show s2.ui_state.installation_tasks.length =
                  s.ui_state.installation_tasks.length
                rw [hua.2.2.2.1, setTaskStatus_length]
              · show s2.ui_state.current_installation_task_index <
                  s2.ui_state.installation_tasks.length
                rcases hua.2.2.2.2 with he | hb
                · rw [he, hua.2.2.2.1, setTaskStatus_length]
                  exact hidx2
                · exact hb
          | some info =>
              try dsimp only
              cases hh : (build_disk_display_list info).head? with
              | none =>
                  refine ⟨hua.1, hua.2.1, hua.2.2.1, ?_, fun hx => ?_⟩
                  · show s2.ui_state.installation_tasks.length =
                      s.ui_state.installation_tasks.length
                    rw [hua.2.2.2.1, setTaskStatus_length]
                  · show s2.ui_state.current_installation_task_index <
                      s2.ui_state.installation_tasks.length
                    rcases hua.2.2.2.2 with he | hb
                    · rw [he, hua.2.2.2.1, setTaskStatus_length]
                      exact hidx2
                    · exact hb
              | some first =>
                  refine ⟨hua.1, hua.2.1, hua.2.2.1, ?_, fun hx => ?_⟩
                  · show s2.ui_state.installation_tasks.length =
                      s.ui_state.installation_tasks.length
                    rw [hua.2.2.2.1, setTaskStatus_length]
                  · show s2.ui_state.current_installation_task_index <
                      s2.ui_state.installation_tasks.length
                    rcases hua.2.2.2.2 with he | hb
                    · rw [he, hua.2.2.2.1, setTaskStatus_length]
                      exact hidx2
                    · exact hb
        · refine ⟨hua.1, hua.2.1, hua.2.2.1, ?_, fun hx => ?_⟩
          · show s2.ui_state.installation_tasks.length =
              s.ui_state.installation_tasks.length
            rw [hua.2.2.2.1, setTaskStatus_length]
          · show s2.ui_state.current_installation_task_index <
              s2.ui_state.installation_tasks.length
            rcases hua.2.2.2.2 with he | hb
            · rw [he, hua.2.2.2.1, setTaskStatus_length]
              exact hidx2
            · exact hb
  · exact ⟨rfl, rfl, rfl, by simp [setTaskStatus_length], fun hx => by
      simpa [setTaskStatus_length] using hx⟩

lemma handle_installation_input_nav (k : KeyCode) (s : AppState) :
    (handle_installation_input k s).ui_state.current_screen =
      s.ui_state.current_screen ∧
    (handle_installation_input k s).ui_state.previous_screen =
      s.ui_state.previous_screen ∧
    (handle_installation_input k s).ui_state.installation_tasks =
      s.ui_state.installation_tasks ∧
    (handle_installation_input k s).ui_state.current_installation_task_index =
      s.ui_state.current_installation_task_index ∧
    ((handle_installation_input k s).ui_state.input_buffer =
        s.ui_state.input_buffer ∨
     (∃ c, k = .char c ∧ (handle_installation_input k s).ui_state.input_buffer =
        s.ui_state.input_buffer.push c) ∨
     (k = .backspace ∧ (handle_installation_input k s).ui_state.input_buffer =
        s.ui_state.input_buffer.dropRight 1)) := by
  unfold handle_installation_input
  cases hst : s.ui_state.installation_step with
  | none => exact ⟨rfl, rfl, rfl, rfl, Or.inl rfl⟩
  | some st =>
      cases st with
      | UserSetup =>
          cases k with
          | char c => exact ⟨rfl, rfl, rfl, rfl, Or.inr (Or.inl ⟨c, rfl, rfl⟩)⟩
          | backspace => exact ⟨rfl, rfl, rfl, rfl, Or.inr (Or.inr ⟨rfl, rfl⟩)⟩
          | enter => exact ⟨rfl, rfl, rfl, rfl, Or.inl rfl⟩
          | esc => exact ⟨rfl, rfl, rfl, rfl, Or.inl rfl⟩
          | up => exact ⟨rfl, rfl, rfl, rfl, Or.inl rfl⟩
          | down => exact ⟨rfl, rfl, rfl, rfl, Or.inl rfl⟩
          | left => exact ⟨rfl, rfl, rfl, rfl, Or.inl rfl⟩
          | right => exact ⟨rfl, rfl, rfl, rfl, Or.inl rfl⟩
          | other => exact ⟨rfl, rfl, rfl, rfl, Or.inl rfl⟩
      | DiskSetup =>
          refine ⟨?_, ?_, ?_, ?_, Or.inl ?_⟩ <;>
            (dsimp only; (repeat' split) <;> rfl)
      | Welcome => exact ⟨rfl, rfl, rfl, rfl, Or.inl rfl⟩
      | NetworkConfig => exact ⟨rfl, rfl, rfl, rfl, Or.inl rfl⟩
      | DesktopChoice => exact ⟨rfl, rfl, rfl, rfl, Or.inl rfl⟩
      | KernelChoice => exact ⟨rfl, rfl, rfl, rfl, Or.inl rfl⟩
      | SecureBootChoice => exact ⟨rfl, rfl, rfl, rfl, Or.inl rfl⟩
      | UpdateSettings => exact ⟨rfl, rfl, rfl, rfl, Or.inl rfl⟩
      | AdditionalPackages => exact ⟨rfl, rfl, rfl, rfl, Or.inl rfl⟩
      | Summary => exact ⟨rfl, rfl, rfl, rfl, Or.inl rfl⟩
      | Installing => exact ⟨rfl, rfl, rfl, rfl, Or.inl rfl⟩
      | Completed => exact ⟨rfl, rfl, rfl, rfl, Or.inl rfl⟩
      | Error => exact ⟨rfl, rfl, rfl, rfl, Or.inl rfl⟩

lemma masterInv_of_projections {s s1 : AppState}
    (h1 : s1.ui_state.current_screen = s.ui_state.current_screen)
    (h2 : s1.ui_state.previous_screen = s.ui_state.previous_screen)
    (h3 : s1.ui_state.installation_tasks = s.ui_state.installation_tasks)
    (h4 : s1.ui_state.current_installation_task_index =
      s.ui_state.current_installation_task_index)
    (h : MasterInv s) : MasterInv s1 :=
  ⟨fun hx => by rw [h1] at hx; rw [h3, h4]; exact h.1 hx,
   fun hx => by rw [h1] at hx; rw [h2]; exact h.2.1 hx,
   fun hx => by rw [h1] at hx; rw [h2]; exact h.2.2 hx⟩

lemma backspacePhase_masterInv (s : AppState) (h : MasterInv s)
    (hm : s.ui_state.current_screen ≠ .Message)
    (hc : s.ui_state.current_screen ≠ .ConfirmExit) :
    MasterInv (backspacePhase s) := by
  unfold backspacePhase
  cases hscr : s.ui_state.current_screen with
  | SystemInstallation =>
      unfold handle_installation_previous_step
      dsimp only
      by_cases he : s.ui_state.installation_tasks.isEmpty = true
      · rw [if_pos he]
        refine ⟨?_, ?_, ?_⟩ <;> intro hx <;>
          simp [UiState.set_current_screen] at hx
      · rw [if_neg he]
        by_cases hgt : s.ui_state.current_installation_task_index > 0
        · rw [if_pos hgt]
          have hmi := h.1 hscr
          cases hget : ((setTaskStatus (setTaskStatus s.ui_state.installation_tasks
              s.ui_state.current_installation_task_index .Pending)
              (s.ui_state.current_installation_task_index - 1) .Active).get?
              (s.ui_state.current_installation_task_index - 1)) with
          | none => exact h
          | some t =>
              dsimp only
              refine ⟨fun hx => ?_, fun hx => ?_, fun hx => ?_⟩
              · have hlen : (setTaskStatus (setTaskStatus s.ui_state.installation_tasks
                    s.ui_state.current_installation_task_index .Pending)
                    (s.ui_state.current_installation_task_index - 1) .Active).length =
                    s.ui_state.installation_tasks.length := by
                  rw [setTaskStatus_length, setTaskStatus_length]
                constructor
                · intro hnil
                  have hnil2 : (setTaskStatus (setTaskStatus s.ui_state.installation_tasks
                      s.ui_state.current_installation_task_index .Pending)
                      (s.ui_state.current_installation_task_index - 1) .Active) = [] := hnil
                  have hl0 : s.ui_state.installation_tasks.length = 0 := by
                    rw [← hlen, hnil2]
                    rfl
                  exact hmi.1 (List.length_eq_zero.mp hl0)
                · show s.ui_state.current_installation_task_index - 1 <
                    (setTaskStatus (setTaskStatus s.ui_state.installation_tasks
                      s.ui_state.current_installation_task_index .Pending)
                      (s.ui_state.current_installation_task_index - 1) .Active).length
                  rw [hlen]
                  omega
              · exact absurd (hscr ▸ hx) (by simp)
              · exact absurd (hscr ▸ hx) (by simp)
        · rw [if_neg hgt]
          refine ⟨?_, ?_, ?_⟩ <;> intro hx <;>
            simp [UiState.set_current_screen] at hx
  | KeyboardSelect =>
      refine ⟨?_, ?_, ?_⟩ <;> intro hx <;>
        simp [UiState.set_current_screen, hscr] at hx ⊢
  | MainMenu =>
      refine ⟨?_, ?_, ?_⟩ <;> intro hx <;>
        simp [UiState.set_current_screen] at hx
  | Message => exact absurd hscr hm
  | ConfirmExit => exact absurd hscr hc
  | LanguageSelect =>
      dsimp only
      split_ifs with h1 h2
      · exact navFrame_masterInv (confirm_exit_navFrame s) h
      · cases hprev : s.ui_state.previous_screen with
        | SystemInstallation => exact absurd hprev (h.2.2 hscr)
        | LanguageSelect =>
            exact absurd hprev h1
        | KeyboardSelect =>
            exact absurd ⟨rfl, hprev⟩ h2
        | MainMenu =>
            refine ⟨?_, ?_, ?_⟩ <;> intro hx <;>
              simp [UiState.set_current_screen] at hx
        | Message =>
            refine ⟨?_, ?_, ?_⟩ <;> intro hx <;>
              simp [UiState.set_current_screen, hscr] at hx ⊢
        | ConfirmExit =>
            refine ⟨?_, ?_, ?_⟩ <;> intro hx <;>
              simp [UiState.set_current_screen] at hx
      · exact navFrame_masterInv (confirm_exit_navFrame s) h

lemma screenPhase_masterInv (env : Env) (k : KeyCode) (s : AppState)
    (h : MasterInv s) : MasterInv (screenPhase env k s) := by
  unfold screenPhase
  cases hscr : s.ui_state.current_screen with
  | MainMenu =>
      unfold mainMenuPhase
      cases k with
      | enter =>
          cases hsel : s.ui_state.selected_menu_item with
          | none => exact h
          | some mi =>
              dsimp only
              split_ifs with h1 h2 h3
              · obtain ⟨idx, b, hidx, hb, hcur, hstep, hscr2, htasks⟩ :=
                  wizardShape_start env s
                refine ⟨fun hx => ?_, fun hx => ?_, fun hx => ?_⟩
                · rw [htasks, hcur]
                  constructor
                  · simp [wizardTasks]
                  · simpa [wizardTasks] using hidx
                · rw [hscr2] at hx
                  simp at hx
                · rw [hscr2] at hx
                  simp at hx
              · refine ⟨fun hx => ?_, fun hx => ?_, fun hx => ?_⟩
                · simp [UiState.show_message] at hx
                · simp [UiState.show_message, hscr]
                · simp [UiState.show_message] at hx
              · refine ⟨fun hx => ?_, fun hx => ?_, fun hx => ?_⟩
                · simp [UiState.show_message] at hx
                · simp [UiState.show_message, hscr]
                · simp [UiState.show_message] at hx
              · exact h
      | down => exact masterInv_of_projections rfl rfl rfl rfl h
      | right => exact masterInv_of_projections rfl rfl rfl rfl h
      | up =>
          exact masterInv_of_projections
            (by simp [UiState.previous_menu_item]; split_ifs <;> rfl)
            (by simp [UiState.previous_menu_item]; split_ifs <;> rfl)
            (by simp [UiState.previous_menu_item]; split_ifs <;> rfl)
            (by simp [UiState.previous_menu_item]; split_ifs <;> rfl) h
      | left =>
          exact masterInv_of_projections
            (by simp [UiState.previous_menu_item]; split_ifs <;> rfl)
            (by simp [UiState.previous_menu_item]; split_ifs <;> rfl)
            (by simp [UiState.previous_menu_item]; split_ifs <;> rfl)
            (by simp [UiState.previous_menu_item]; split_ifs <;> rfl) h
      | esc => exact h
      | backspace => exact h
      | char c => exact h
      | other => exact h
  | LanguageSelect =>
      unfold languageSelectPhase
      cases k with
      | enter =>
          cases hsel : s.ui_state.selected_language with
          | none => exact h
          | some lang =>
              dsimp only
              by_cases hok : env.langOk lang = true
              · rw [if_pos hok]
                refine ⟨fun hx => ?_, fun hx => ?_, fun hx => ?_⟩ <;> simp at hx
              · rw [if_neg hok]
                refine ⟨fun hx => ?_, fun hx => ?_, fun hx => ?_⟩
                · simp [UiState.show_error, UiState.show_message] at hx
                · simp [UiState.show_error, UiState.show_message, hscr]
                · simp [UiState.show_error, UiState.show_message] at hx
      | down => exact masterInv_of_projections rfl rfl rfl rfl h
      | up =>
          exact masterInv_of_projections
            (by simp [UiState.previous_language]; split_ifs <;> rfl)
            (by simp [UiState.previous_language]; split_ifs <;> rfl)
            (by simp [UiState.previous_language]; split_ifs <;> rfl)
            (by simp [UiState.previous_language]; split_ifs <;> rfl) h
      | esc => exact h
      | backspace => exact h
      | char c => exact h
      | left => exact h
      | right => exact h
      | other => exact h
  | KeyboardSelect =>
      unfold keyboardSelectPhase
      cases k with
      | enter =>
          cases hsel : s.ui_state.selected_keyboard with
          | none => exact h
          | some kb =>
              dsimp only
              by_cases hok : env.kbOk kb = true
              · rw [if_pos hok]
                refine ⟨fun hx => ?_, fun hx => ?_, fun hx => ?_⟩ <;> simp at hx
              · rw [if_neg hok]
                refine ⟨fun hx => ?_, fun hx => ?_, fun hx => ?_⟩
                · simp [UiState.show_error, UiState.show_message] at hx
                · simp [UiState.show_error, UiState.show_message, hscr]
                · simp [UiState.show_error, UiState.show_message] at hx
      | down => exact masterInv_of_projections rfl rfl rfl rfl h
      | up =>
          exact masterInv_of_projections
            (by simp [UiState.previous_keyboard]; split_ifs <;> rfl)
            (by simp [UiState.previous_keyboard]; split_ifs <;> rfl)
            (by simp [UiState.previous_keyboard]; split_ifs <;> rfl)
            (by simp [UiState.previous_keyboard]; split_ifs <;> rfl) h
      | esc => exact h
      | backspace => exact h
      | char c => exact h
      | left => exact h
      | right => exact h
      | other => exact h
  | Message =>
      unfold messagePhase
      have hclear : MasterInv { s with ui_state := s.ui_state.clear_message } := by
        refine ⟨fun hx => ?_, fun hx => ?_, fun hx => ?_⟩
        · have hx2 : s.ui_state.previous_screen = .SystemInstallation := hx
          exact absurd hx2 (h.2.1 hscr)
        · have hx2 : s.ui_state.previous_screen = .Message := hx
          show s.ui_state.previous_screen ≠ .SystemInstallation
          rw [hx2]
          simp
        · have hx2 : s.ui_state.previous_screen = .LanguageSelect := hx
          show s.ui_state.previous_screen ≠ .SystemInstallation
          rw [hx2]
          simp
      cases k with
      | enter => exact hclear
      | esc => exact hclear
      | backspace => exact hclear
      | up => exact h
      | down => exact h
      | left => exact h
      | right => exact h
      | char c => exact h
      | other => exact h
  | ConfirmExit => exact h
  | SystemInstallation =>
      unfold installationScreenPhase
      cases k with
      | enter =>
          dsimp only
          split_ifs with hdlg
          · have hn := handle_installation_next_step_nav s
            refine ⟨fun hx => ?_, fun hx => ?_, fun hx => ?_⟩
            · have hmi := h.1 hscr
              constructor
              · intro hnil
                have hl0 := congrArg List.length hnil
                rw [hn.2.2.2.1] at hl0
                simp at hl0
                exact hmi.1 hl0
              · exact hn.2.2.2.2 hmi.2
            · rw [hn.1, hscr] at hx
              simp at hx
            · rw [hn.1, hscr] at hx
              simp at hx
          · exact h
      | char c =>
          dsimp only
          split_ifs with h1 h2
          · exact masterInv_of_projections rfl rfl rfl rfl h
          · exact h
          · have h4 := handle_installation_input_nav (.char c) s
            exact masterInv_of_projections h4.1 h4.2.1 h4.2.2.1 h4.2.2.2.1 h
      | esc =>
          have h4 := handle_installation_input_nav .esc s
          exact masterInv_of_projections h4.1 h4.2.1 h4.2.2.1 h4.2.2.2.1 h
      | backspace =>
          have h4 := handle_installation_input_nav .backspace s
          exact masterInv_of_projections h4.1 h4.2.1 h4.2.2.1 h4.2.2.2.1 h
      | up =>
          have h4 := handle_installation_input_nav .up s
          exact masterInv_of_projections h4.1 h4.2.1 h4.2.2.1 h4.2.2.2.1 h
      | down =>
          have h4 := handle_installation_input_nav .down s
          exact masterInv_of_projections h4.1 h4.2.1 h4.2.2.1 h4.2.2.2.1 h
      | left =>
          have h4 := handle_installation_input_nav .left s
          exact masterInv_of_projections h4.1 h4.2.1 h4.2.2.1 h4.2.2.2.1 h
      | right =>
          have h4 := handle_installation_input_nav .right s
          exact masterInv_of_projections h4.1 h4.2.1 h4.2.2.1 h4.2.2.2.1 h
      | other =>
          have h4 := handle_installation_input_nav .other s
          exact masterInv_of_projections h4.1 h4.2.1 h4.2.2.1 h4.2.2.2.1 h

lemma masterInv_init (env : Env) (config : Config) :
    MasterInv (App.new env config) := by
  refine ⟨fun hx => ?_, fun hx => ?_, fun hx => ?_⟩
  · exact Screen.noConfusion
      (show Screen.LanguageSelect = Screen.SystemInstallation from hx)
  · exact Screen.noConfusion (show Screen.LanguageSelect = Screen.Message from hx)
  · exact fun hp => Screen.noConfusion
      (show Screen.LanguageSelect = Screen.SystemInstallation from hp)

lemma masterInv_step (env : Env) (k : KeyEvent) (s : AppState)
    (h : MasterInv s) : MasterInv (handle_key_event env k s) := by
  unfold handle_key_event
  cases halt : altPhase k s with
  | some s1 => exact navFrame_masterInv (altPhase_navFrame k s s1 halt) h
  | none =>
      dsimp only
      split_ifs with h1 h2 h3
      · exact navFrame_masterInv
          (untouchedByDialog_navFrame s _ (dialogPhase_frame k.code s)) h
      · exact navFrame_masterInv (confirm_exit_navFrame s) h
      · exact backspacePhase_masterInv s h h3.2.1 h3.2.2
      · exact screenPhase_masterInv env k.code s h

lemma masterInv_reachable (s : AppState) (h : Reachable s) : MasterInv s := by
  induction h with
  | init env config => exact masterInv_init env config
  | step s env k hr ih => exact masterInv_step env k s ih

/-- C9: in every reachable state whose screen is `SystemInstallation`, the
installation task list is non-empty and the current task index is strictly
below its length; in particular `installation_tasks.len() - 1` in
`handle_installation_next_step` (which runs only on this screen) never
underflows. -/
theorem installation_screen_index_in_bounds (s : AppState) (h : Reachable s)
    (hscr : s.ui_state.current_screen = .SystemInstallation) :
    s.ui_state.installation_tasks ≠ [] ∧
    s.ui_state.current_installation_task_index <
      s.ui_state.installation_tasks.length ∧
    1 ≤ s.ui_state.installation_tasks.length := by
  have hmi := (masterInv_reachable s h).1 hscr
  refine ⟨hmi.1, hmi.2, ?_⟩
  have := List.length_pos.mpr hmi.1
  omega

/-- The startup state driven to the wizard: language Enter, keyboard Enter,
main-menu Enter on "install". -/
def demoReachState : AppState :=
  handle_key_event demoEnv ⟨.enter, false⟩ (handle_key_event demoEnv
    ⟨.enter, false⟩ (handle_key_event demoEnv ⟨.enter, false⟩ demoApp))

/-- C9 witness: the concrete reachable wizard state has a non-empty task list
with the index in bounds. -/
theorem installation_screen_index_in_bounds_witness :
    demoReachState.ui_state.installation_tasks ≠ [] ∧
    demoReachState.ui_state.current_installation_task_index <
      demoReachState.ui_state.installation_tasks.length ∧
    1 ≤ demoReachState.ui_state.installation_tasks.length :=
  installation_screen_index_in_bounds demoReachState
    (Reachable.step _ demoEnv ⟨.enter, false⟩
      (Reachable.step _ demoEnv ⟨.enter, false⟩
        (Reachable.step _ demoEnv ⟨.enter, false⟩
          (Reachable.init demoEnv demoConfig))))
    rfl

/-! ### C10: the input buffer survives wizard exit and re-entry -/

lemma push_ne_empty (b : String) (c : Char) : b.push c ≠ "" := by
  intro h
  have := congrArg String.length h
  rw [String.length_push] at this
  simp at this

lemma start_installation_wizard_buffer (env : Env) (s : AppState) :
    (start_installation_wizard env s).ui_state.input_buffer =
      s.ui_state.input_buffer := by
  unfold start_installation_wizard
  dsimp only
  have hua := update_active_task_status_nav
    { s with ui_state := { s.ui_state with
        installation_step := some .Welcome,
        current_installation_task_index := 0,
        installation_tasks := initialize_installation_tasks env,
        installation_task_list_selected := some 0 } }
  generalize hs1 : update_active_task_status
    { s with ui_state := { s.ui_state with
        installation_step := some .Welcome,
        current_installation_task_index := 0,
        installation_tasks := initialize_installation_tasks env,
        installation_task_list_selected := some 0 } } = s1 at hua ⊢
  dsimp only at hua
  exact hua.2.2.1

lemma backspacePhase_buffer (s : AppState) :
    (backspacePhase s).ui_state.input_buffer = s.ui_state.input_buffer ∨
    (s.ui_state.current_screen = .SystemInstallation ∧
     s.ui_state.installation_tasks ≠ [] ∧
     0 < s.ui_state.current_installation_task_index ∧
     (backspacePhase s).ui_state.input_buffer = "") := by
  unfold backspacePhase
  cases hscr : s.ui_state.current_screen with
  | SystemInstallation =>
      unfold handle_installation_previous_step
      dsimp only
      by_cases he : s.ui_state.installation_tasks.isEmpty = true
      · rw [if_pos he]
        exact Or.inl rfl
      · rw [if_neg he]
        by_cases hgt : s.ui_state.current_installation_task_index > 0
        · rw [if_pos hgt]
          cases hget : ((setTaskStatus (setTaskStatus s.ui_state.installation_tasks
              s.ui_state.current_installation_task_index .Pending)
              (s.ui_state.current_installation_task_index - 1) .Active).get?
              (s.ui_state.current_installation_task_index - 1)) with
          | none => exact Or.inl rfl
          | some t =>
              refine Or.inr ⟨rfl, fun hnil => he ?_, hgt, rfl⟩
              rw [hnil]
              rfl
        · rw [if_neg hgt]
          exact Or.inl rfl
  | KeyboardSelect => exact Or.inl rfl
  | MainMenu => exact Or.inl rfl
  | Message =>
      dsimp only
      split_ifs with h1 h2
      · unfold confirm_exit
        split_ifs <;> exact Or.inl rfl
      · cases hprev : s.ui_state.previous_screen <;> exact Or.inl rfl
      · unfold confirm_exit
        split_ifs <;> exact Or.inl rfl
  | ConfirmExit =>
      dsimp only
      split_ifs with h1 h2
      · unfold confirm_exit
        split_ifs <;> exact Or.inl rfl
      · cases hprev : s.ui_state.previous_screen <;> exact Or.inl rfl
      · unfold confirm_exit
        split_ifs <;> exact Or.inl rfl
  | LanguageSelect =>
      dsimp only
      split_ifs with h1 h2
      · unfold confirm_exit
        split_ifs <;> exact Or.inl rfl
      · cases hprev : s.ui_state.previous_screen <;> exact Or.inl rfl
      · unfold confirm_exit
        split_ifs <;> exact Or.inl rfl

lemma screenPhase_buffer (env : Env) (k : KeyCode) (s : AppState) :
    (screenPhase env k s).ui_state.input_buffer = s.ui_state.input_buffer ∨
    (∃ c, k = .char c ∧ (screenPhase env k s).ui_state.input_buffer =
      s.ui_state.input_buffer.push c) ∨
    (k = .backspace ∧ s.ui_state.current_screen = .SystemInstallation ∧
     (screenPhase env k s).ui_state.input_buffer =
      s.ui_state.input_buffer.dropRight 1) := by
  unfold screenPhase
  cases hscr : s.ui_state.current_screen with
  | MainMenu =>
      unfold mainMenuPhase
      cases k with
      | enter =>
          cases hsel : s.ui_state.selected_menu_item with
          | none => exact Or.inl rfl
          | some mi =>
              dsimp only
              split_ifs with h1 h2 h3
              · exact Or.inl (start_installation_wizard_buffer env s)
              · exact Or.inl rfl
              · exact Or.inl rfl
              · exact Or.inl rfl
      | down => exact Or.inl rfl
      | right => exact Or.inl rfl
      | up =>
          left
          unfold UiState.previous_menu_item
          split_ifs <;> rfl
      | left =>
          left
          unfold UiState.previous_menu_item
          split_ifs <;> rfl
      | esc => exact Or.inl rfl
      | backspace => exact Or.inl rfl
      | char c => exact Or.inl rfl
      | other => exact Or.inl rfl
  | LanguageSelect =>
      unfold languageSelectPhase
      cases k with
      | enter =>
          cases hsel : s.ui_state.selected_language with
          | none => exact Or.inl rfl
          | some lang =>
              dsimp only
              by_cases hok : env.langOk lang = true
              · rw [if_pos hok]
                exact Or.inl rfl
              · rw [if_neg hok]
                exact Or.inl rfl
      | down => exact Or.inl rfl
      | up =>
          left
          unfold UiState.previous_language
          split_ifs <;> rfl
      | esc => exact Or.inl rfl
      | backspace => exact Or.inl rfl
      | char c => exact Or.inl rfl
      | left => exact Or.inl rfl
      | right => exact Or.inl rfl
      | other => exact Or.inl rfl
  | KeyboardSelect =>
      unfold keyboardSelectPhase
      cases k with
      | enter =>
          cases hsel : s.ui_state.selected_keyboard with
          | none => exact Or.inl rfl
          | some kb =>
              dsimp only
              by_cases hok : env.kbOk kb = true
              · rw [if_pos hok]
                exact Or.inl rfl
              · rw [if_neg hok]
                exact Or.inl rfl
      | down => exact Or.inl rfl
      | up =>
          left
          unfold UiState.previous_keyboard
          split_ifs <;> rfl
      | esc => exact Or.inl rfl
      | backspace => exact Or.inl rfl
      | char c => exact Or.inl rfl
      | left => exact Or.inl rfl
      | right => exact Or.inl rfl
      | other => exact Or.inl rfl
  | Message =>
      unfold messagePhase
      cases k with
      | enter => exact Or.inl rfl
      | esc => exact Or.inl rfl
      | backspace => exact Or.inl rfl
      | up => exact Or.inl rfl
      | down => exact Or.inl rfl
      | left => exact Or.inl rfl
      | right => exact Or.inl rfl
      | char c => exact Or.inl rfl
      | other => exact Or.inl rfl
  | ConfirmExit => exact Or.inl rfl
  | SystemInstallation =>
      unfold installationScreenPhase
      cases k with
      | enter =>
          dsimp only
          split_ifs with hdlg
          · exact Or.inl (handle_installation_next_step_nav s).2.2.1
          · exact Or.inl rfl
      | char c =>
          dsimp only
          split_ifs with h1 h2
          · exact Or.inl rfl
          · exact Or.inl rfl
          · rcases (handle_installation_input_nav (.char c) s).2.2.2.2 with
              hb | ⟨c2, hc2, hp⟩ | ⟨hk, _⟩
            · exact Or.inl hb
            · cases hc2
              exact Or.inr (Or.inl ⟨c, rfl, hp⟩)
            · exact KeyCode.noConfusion hk
      | backspace =>
          rcases (handle_installation_input_nav .backspace s).2.2.2.2 with
            hb | ⟨c2, hc2, _⟩ | ⟨_, hd⟩
          · exact Or.inl hb
          · exact KeyCode.noConfusion hc2
          · exact Or.inr (Or.inr ⟨rfl, rfl, hd⟩)
      | esc =>
          rcases (handle_installation_input_nav .esc s).2.2.2.2 with
            hb | ⟨c2, hc2, _⟩ | ⟨hk, _⟩
          · exact Or.inl hb
          · exact KeyCode.noConfusion hc2
          · exact KeyCode.noConfusion hk
      | up =>
          rcases (handle_installation_input_nav .up s).2.2.2.2 with
            hb | ⟨c2, hc2, _⟩ | ⟨hk, _⟩
          · exact Or.inl hb
          · exact KeyCode.noConfusion hc2
          · exact KeyCode.noConfusion hk
      | down =>
          rcases (handle_installation_input_nav .down s).2.2.2.2 with
            hb | ⟨c2, hc2, _⟩ | ⟨hk, _⟩
          · exact Or.inl hb
          · exact KeyCode.noConfusion hc2
          · exact KeyCode.noConfusion hk
      | left =>
          rcases (handle_installation_input_nav .left s).2.2.2.2 with
            hb | ⟨c2, hc2, _⟩ | ⟨hk, _⟩
          · exact Or.inl hb
          · exact KeyCode.noConfusion hc2
          · exact KeyCode.noConfusion hk
      | right =>
          rcases (handle_installation_input_nav .right s).2.2.2.2 with
            hb | ⟨c2, hc2, _⟩ | ⟨hk, _⟩
          · exact Or.inl hb
          · exact KeyCode.noConfusion hc2
          · exact KeyCode.noConfusion hk
      | other =>
          rcases (handle_installation_input_nav .other s).2.2.2.2 with
            hb | ⟨c2, hc2, _⟩ | ⟨hk, _⟩
          · exact Or.inl hb
          · exact KeyCode.noConfusion hc2
          · exact KeyCode.noConfusion hk

/-- C10: the free-text `input_buffer` is cleared only by the previous-step
transition taken at task index > 0.  Part 1: any key event that turns a
non-empty buffer into the empty buffer must be a Backspace delivered with no
dialog open on the `SystemInstallation` screen with a non-empty task list at
task index > 0.  Part 2: Backspace at task index 0 (the wizard-exit route)
leaves the buffer unchanged.  Part 3: any Enter press on `MainMenu` — in
particular the one on the "install" item that re-enters the wizard — leaves
the buffer unchanged.  Part 4: `start_installation_wizard` itself leaves the
buffer unchanged.  Hence text typed in `UserSetup` persists across a wizard
exit and re-entry. -/
theorem input_buffer_persistence :
    (∀ (env : Env) (k : KeyEvent) (s : AppState),
      s.ui_state.input_buffer ≠ "" →
      (handle_key_event env k s).ui_state.input_buffer = "" →
      k.code = .backspace ∧ s.ui_state.active_dialog = none ∧
      s.ui_state.current_screen = .SystemInstallation ∧
      s.ui_state.installation_tasks ≠ [] ∧
      0 < s.ui_state.current_installation_task_index) ∧
    (∀ (env : Env) (k : KeyEvent) (s : AppState),
      k.code = .backspace →
      s.ui_state.current_screen = .SystemInstallation →
      s.ui_state.current_installation_task_index = 0 →
      (handle_key_event env k s).ui_state.input_buffer =
        s.ui_state.input_buffer) ∧
    (∀ (env : Env) (k : KeyEvent) (s : AppState),
      k.code = .enter →
      s.ui_state.current_screen = .MainMenu →
      (handle_key_event env k s).ui_state.input_buffer =
        s.ui_state.input_buffer) ∧
    (∀ (env : Env) (s : AppState),
      (start_installation_wizard env s).ui_state.input_buffer =
        s.ui_state.input_buffer) := by
  refine ⟨?_, ?_, ?_, fun env s => start_installation_wizard_buffer env s⟩
  · intro env k s hne hz
    unfold handle_key_event at hz
    cases halt : altPhase k s with
    | some s1 =>
        rw [halt] at hz
        dsimp only at hz
        exact absurd ((altPhase_navFrame k s s1 halt).2.2.2.2.symm.trans hz) hne
    | none =>
        rw [halt] at hz
        dsimp only at hz
        by_cases hdlg : s.ui_state.active_dialog.isSome = true
        · rw [if_pos hdlg] at hz
          exact absurd (((untouchedByDialog_navFrame s _
            (dialogPhase_frame k.code s)).2.2.2.2).symm.trans hz) hne
        · rw [if_neg hdlg] at hz
          by_cases hesc : k.code = .esc ∧ s.ui_state.active_dialog = none ∧
              s.ui_state.current_screen ≠ .ConfirmExit ∧
              s.ui_state.current_screen ≠ .Message
          · rw [if_pos hesc] at hz
            exact absurd ((confirm_exit_navFrame s).2.2.2.2.symm.trans hz) hne
          · rw [if_neg hesc] at hz
            by_cases hbk : k.code = .backspace ∧
                s.ui_state.current_screen ≠ .Message ∧
                s.ui_state.current_screen ≠ .ConfirmExit
            · rw [if_pos hbk] at hz
              rcases backspacePhase_buffer s with hb | ⟨hscr, htne, hgt, _⟩
              · exact absurd (hb.symm.trans hz) hne
              · have hnone : s.ui_state.active_dialog = none := by
                  cases hd : s.ui_state.active_dialog with
                  | none => rfl
                  | some d => exact absurd (by rw [hd]; rfl) hdlg
                exact ⟨hbk.1, hnone, hscr, htne, hgt⟩
            · rw [if_neg hbk] at hz
              rcases screenPhase_buffer env k.code s with
                hb | ⟨c, _, hp⟩ | ⟨hk, hscr, _⟩
              · exact absurd (hb.symm.trans hz) hne
              · rw [hp] at hz
                exact absurd hz (push_ne_empty _ c)
              · refine absurd ⟨hk, ?_, ?_⟩ hbk
                · rw [hscr]
                  exact fun h => Screen.noConfusion h
                · rw [hscr]
                  exact fun h => Screen.noConfusion h
  · intro env k s hk hscr hidx
    unfold handle_key_event
    cases halt : altPhase k s with
    | some s1 => exact (altPhase_navFrame k s s1 halt).2.2.2.2
    | none =>
        dsimp only
        by_cases hdlg : s.ui_state.active_dialog.isSome = true
        · rw [if_pos hdlg]
          exact (untouchedByDialog_navFrame s _
            (dialogPhase_frame k.code s)).2.2.2.2
        · rw [if_neg hdlg]
          have hesc : ¬(k.code = .esc ∧ s.ui_state.active_dialog = none ∧
              s.ui_state.current_screen ≠ .ConfirmExit ∧
              s.ui_state.current_screen ≠ .Message) := by
            intro h
            rw [hk] at h
            exact KeyCode.noConfusion h.1
          rw [if_neg hesc]
          have hbk : k.code = .backspace ∧
              s.ui_state.current_screen ≠ .Message ∧
              s.ui_state.current_screen ≠ .ConfirmExit := by
            refine ⟨hk, ?_, ?_⟩
            · rw [hscr]
              exact fun h => Screen.noConfusion h
            · rw [hscr]
              exact fun h => Screen.noConfusion h
          rw [if_pos hbk]
          rcases backspacePhase_buffer s with hb | ⟨_, _, hgt, _⟩
          · exact hb
          · rw [hidx] at hgt
            exact absurd hgt (lt_irrefl 0)
  · intro env k s hk hscr
    unfold handle_key_event
    cases halt : altPhase k s with
    | some s1 => exact (altPhase_navFrame k s s1 halt).2.2.2.2
    | none =>
        dsimp only
        by_cases hdlg : s.ui_state.active_dialog.isSome = true
        · rw [if_pos hdlg]
          exact (untouchedByDialog_navFrame s _
            (dialogPhase_frame k.code s)).2.2.2.2
        · rw [if_neg hdlg]
          have hesc : ¬(k.code = .esc ∧ s.ui_state.active_dialog = none ∧
              s.ui_state.current_screen ≠ .ConfirmExit ∧
              s.ui_state.current_screen ≠ .Message) := by
            intro h
            rw [hk] at h
            exact KeyCode.noConfusion h.1
          rw [if_neg hesc]
          have hbk : ¬(k.code = .backspace ∧
              s.ui_state.current_screen ≠ .Message ∧
              s.ui_state.current_screen ≠ .ConfirmExit) := by
            intro h
            rw [hk] at h
            exact KeyCode.noConfusion h.1
          rw [if_neg hbk]
          rcases screenPhase_buffer env k.code s with
            hb | ⟨c, hc, _⟩ | ⟨hkb, _, _⟩
          · exact hb
          · rw [hk] at hc
            exact KeyCode.noConfusion hc
          · rw [hk] at hkb
            exact KeyCode.noConfusion hkb

/-- Concrete instantiation of `input_buffer_persistence`: from the wizard at
task index 1 with buffer "ab", Backspace empties the buffer and the
clearing-conditions hold; Backspace at index 0 and Enter on the main menu
(re-entering the wizard) keep the buffer, as does `start_installation_wizard`
itself. -/
theorem input_buffer_persistence_witness :
    (demoWizardTyped.ui_state.input_buffer ≠ "" ∧
     (handle_key_event demoEnv { code := .backspace, alt := false }
        demoWizardTyped).ui_state.input_buffer = "" ∧
     0 < demoWizardTyped.ui_state.current_installation_task_index) ∧
    ((KeyEvent.mk .backspace false).code = .backspace ∧
     demoWizardTyped0.ui_state.current_screen = .SystemInstallation ∧
     demoWizardTyped0.ui_state.current_installation_task_index = 0 ∧
     (handle_key_event demoEnv { code := .backspace, alt := false }
        demoWizardTyped0).ui_state.input_buffer =
       demoWizardTyped0.ui_state.input_buffer) ∧
    ((KeyEvent.mk .enter false).code = .enter ∧
     demoAppTyped.ui_state.current_screen = .MainMenu ∧
     (handle_key_event demoEnv { code := .enter, alt := false }
        demoAppTyped).ui_state.input_buffer =
       demoAppTyped.ui_state.input_buffer) ∧
    (start_installation_wizard demoEnv demoAppTyped).ui_state.input_buffer =
      demoAppTyped.ui_state.input_buffer :=
  ⟨⟨by decide, by decide,
    (input_buffer_persistence.1 demoEnv { code := .backspace, alt := false }
      demoWizardTyped (by decide) (by decide)).2.2.2.2⟩,
   ⟨rfl, by decide, by decide,
    input_buffer_persistence.2.1 demoEnv { code := .backspace, alt := false }
      demoWizardTyped0 rfl (by decide) (by decide)⟩,
   ⟨rfl, by decide,
    input_buffer_persistence.2.2.1 demoEnv { code := .enter, alt := false }
      demoAppTyped rfl (by decide)⟩,
   input_buffer_persistence.2.2.2 demoEnv demoAppTyped⟩

end Lunitool
